import Mathlib

/-!
Verification of the NEURASHIELD ensemble threat-detection core
(`src/enhanced_models/`).

The Python modules are shallowly embedded: every dictionary-shaped result
becomes a structure whose `Option` fields mirror the presence or absence of
the corresponding dictionary key; floating-point arithmetic is modelled by
exact rationals (all constants in the source are short decimal literals);
Python exceptions are modelled by `Except String`; `datetime.now().isoformat()`
is abstracted by a `now : String` parameter; `hashlib.sha256(...).hexdigest()`
is abstracted by a per-file `hash` field of the modelled file system.
-/

set_option linter.unusedVariables false
set_option maxHeartbeats 1000000
set_option synthInstance.maxHeartbeats 400000

namespace NeuraShield

/-! ## Python string primitives -/

/-- Python's `needle in hay` on strings: `needle` occurs as a contiguous
substring of `hay` (the empty string occurs in everything). -/
def containsSub (n : List Char) : List Char → Bool
  | [] => n.isEmpty
  | c :: t => ((c :: t).take n.length == n) || containsSub n t

/-- ASCII lowering, as `str.lower()` behaves on the ASCII-only constants used
throughout the source. -/
def lowerList (l : List Char) : List Char := l.map Char.toLower

/-- Case-sensitive `needle in hay` on `String`s. -/
def pyIn (needle hay : String) : Bool := containsSub needle.toList hay.toList

/-- `needle.lower() in hay.lower()`. -/
def pyInLower (needle hay : String) : Bool :=
  containsSub (lowerList needle.toList) (lowerList hay.toList)

/-- Python `dict` lookup on an association list with string keys (the
Coordinator's dictionaries assign each key at most once). -/
def dictLookup {β : Type} (l : List (String × β)) (k : String) : Option β :=
  match l with
  | [] => none
  | p :: t => if p.1 = k then some p.2 else dictLookup t k

/-- Whether `needle` is a leading segment of `hay`. -/
def startsWithL (needle hay : List Char) : Bool := hay.take needle.length == needle

/-- Python's `s.split(sep)` for a one-character separator. -/
def splitOnChar (sep : Char) : List Char → List (List Char)
  | [] => [[]]
  | c :: t =>
    let r := splitOnChar sep t
    if c = sep then [] :: r
    else
      match r with
      | [] => [[c]]
      | h :: t2 => (c :: h) :: t2

/-- Decimal digit value of a character, if any. -/
def digitVal (c : Char) : Option Nat :=
  if '0' ≤ c ∧ c ≤ '9' then some (c.toNat - 48) else none

/-- Python's `int(s)` for a plain decimal numeral (no surrounding whitespace,
as produced by the snapshot collector's `f"{ip}:{port}"` formatting);
`none` models the `ValueError` raised on a malformed numeral. -/
def parseNatList (l : List Char) : Option Nat :=
  if l.isEmpty then none
  else l.foldl (fun acc c => acc.bind fun n => (digitVal c).map fun d => n * 10 + d) (some 0)

/-- `int(s)` allowing a leading minus sign. -/
def parseIntList (l : List Char) : Option Int :=
  match l with
  | '-' :: t => (parseNatList t).map fun n => -(n : Int)
  | _ => (parseNatList l).map Int.ofNat

/-- `os.path.splitext(path)[1]`: the dot-suffix of the final path component,
empty when the component has no dot or consists only of leading dots. -/
def splitextExt (path : String) : String :=
  let base := ((splitOnChar '/' path.toList).getLastD [])
  let revExt := base.reverse.takeWhile (· ≠ '.')
  if revExt.length = base.length then ""
  else
    let pre := base.take (base.length - revExt.length - 1)
    if pre.all (· = '.') then "" else String.mk ('.' :: revExt.reverse)

/-! ## Result data model

One `ModuleResult` structure stands for every adapter-result dictionary in the
source; an `Option` field is `none` exactly when the corresponding key is
absent from the dictionary.  Per the data model, a `ThreatRecord`'s `details`
payload is opaque and is not represented. -/

/-- One detected-threat record (`{"type": ..., "module"/"risk_level": ...}`). -/
structure ThreatRecord where
  ttype : String
  module : Option String := none
  risk_level : Option String := none
deriving DecidableEq, Repr

/-- The `details` sub-dictionary of the signature adapter's results. -/
inductive ResultDetails where
  | hashInfo (hash : String) (signature_match : Bool)
  | ruleInfo (rule : String) (nMatches : Nat)
deriving DecidableEq, Repr

/-- The `features` sub-dictionary of the file analyzer's results. -/
structure Features where
  file_size : Option Nat := none
  extension : Option String := none
  is_binary : Option Bool := none
  malicious_patterns : Option (List String) := none
  threat_score : Option ℚ := none
  pattern_count : Option Nat := none
deriving DecidableEq, Repr

/-- The `analysis_summary` sub-dictionary (one shape per module). -/
inductive AnalysisSummary where
  | behavioral (suspicious_processes suspicious_commands suspicious_connections : Nat)
  | encrypted (tls_hosts_analyzed dns_queries_analyzed connections_analyzed : Nat)
  | social (email_analyzed : Bool) (urls_analyzed : Nat) (content_analyzed : Bool)
deriving DecidableEq, Repr

/-- An adapter-result dictionary. -/
structure ModuleResult where
  detected : Option Bool := none
  threat_type : Option String := none
  prediction : Option String := none
  confidence : Option ℚ := none
  method : Option String := none
  timestamp : Option String := none
  details : Option ResultDetails := none
  features : Option Features := none
  threats_detected : Option (List ThreatRecord) := none
  threat_types : Option (List String) := none
  threat_level : Option String := none
  overall_risk_score : Option ℚ := none
  analysis_summary : Option AnalysisSummary := none
  error : Option String := none
deriving DecidableEq, Repr

/-- The empty dictionary `{}`. -/
def emptyResult : ModuleResult := {}

/-! ## The modelled file system

A file is its size in bytes, its decoded text content (`none` when a text-mode
read raises), and its SHA-256 hex digest (`none` when the binary read raises,
which `_calculate_hash` turns into `"error_hash"`). -/

structure FileData where
  size : Nat := 0
  text : Option String := none
  hash : Option String := none
deriving DecidableEq, Repr

/-- `os.path.exists` holds exactly for the paths in the association list. -/
def FileSystem := List (String × FileData)

def lookupFile (fs : FileSystem) (path : String) : Option FileData :=
  dictLookup fs path

/-! ## `signature_detector_simple.py` -/

namespace SignatureDetector

/-- The fixed hash-to-label signature table (`_load_sample_signatures`). -/
def signature_database : List (String × String) :=
  [("e3b0c44298fc1c149afbf4c8996fb92427ae41e4649b934ca495991b7852b855", "Trojan.Generic"),
   ("d41d8cd98f00b204e9800998ecf8427e", "Malware.Sample"),
   ("5d41402abc4b2a76b9719d911017c592", "Virus.Test")]

structure YaraRule where
  name : String
  strings : List String
deriving DecidableEq, Repr

/-- The fixed rule set; the single rule's condition is "2 of them". -/
def yara_rules : List YaraRule :=
  [⟨"suspicious_strings", ["cmd.exe", "powershell", "DownloadString"]⟩]

/-- `SignatureDetector._calculate_hash`: the SHA-256 digest of the file, or
`"error_hash"` when the binary read raises. -/
def calculate_hash (fd : FileData) : String := fd.hash.getD "error_hash"

/-- `SignatureDetector._check_yara_rules`. -/
def check_yara_rules (fd : FileData) (now : String) : ModuleResult :=
  match fd.text with
  | none =>
    { detected := some false, threat_type := some "Error", confidence := some 0,
      method := some "yara", timestamp := some now, error := some "read failure" }
  | some t =>
    let content := lowerList t.toList
    match yara_rules.findSome? (fun rule =>
        let nMatches := (rule.strings.filter fun s => containsSub (lowerList s.toList) content).length
        if 2 ≤ nMatches then
          some { detected := some true, threat_type := some ("YARA: " ++ rule.name),
                 confidence := some 0.8, method := some "yara", timestamp := some now,
                 details := some (.ruleInfo rule.name nMatches) }
        else none) with
    | some r => r
    | none =>
      { detected := some false, threat_type := some "Clean", confidence := some 0,
        method := some "yara", timestamp := some now }

/-- `SignatureDetector.detect_threats`. -/
def detect_threats (fs : FileSystem) (now : String) (file_path : String) : ModuleResult :=
  match lookupFile fs file_path with
  | none =>
    { detected := some false, threat_type := some "Unknown", confidence := some 0,
      method := some "signature", timestamp := some now, error := some "File not found" }
  | some fd =>
    let file_hash := calculate_hash fd
    match dictLookup signature_database file_hash with
    | some label =>
      { detected := some true, threat_type := some label, confidence := some 0.95,
        method := some "signature", timestamp := some now,
        details := some (.hashInfo file_hash true) }
    | none =>
      let yara_result := check_yara_rules fd now
      if yara_result.detected.getD false then yara_result
      else
        { detected := some false, threat_type := some "Clean", confidence := some 0,
          method := some "signature", timestamp := some now,
          details := some (.hashInfo file_hash false) }

end SignatureDetector

/-! ## `file_analyzer_simple.py` -/

namespace FileAnalyzer

def malicious_patterns : List String :=
  ["cmd.exe", "powershell", "DownloadString", "Invoke-Expression",
   "regsvr32", "rundll32", "wscript", "cscript", "mshta"]

def suspicious_extensions : List String := [".exe", ".bat", ".cmd", ".ps1", ".vbs", ".js"]

/-- `FileAnalyzer.predict`. -/
def predict (fs : FileSystem) (now : String) (file_path : String) : ModuleResult :=
  match lookupFile fs file_path with
  | none =>
    { prediction := some "error", confidence := some 0, threat_type := some "File Not Found",
      timestamp := some now, error := some "File not found" }
  | some fd =>
    let file_size := fd.size
    let file_extension := String.mk (lowerList (splitextExt file_path).toList)
    let suspiciousExt := suspicious_extensions.contains file_extension
    match fd.text with
    | none =>
      if suspiciousExt && file_size > 1024 then
        { prediction := some "suspicious", confidence := some 0.6,
          threat_type := some "Suspicious Binary", timestamp := some now,
          features := some { file_size := some file_size, extension := some file_extension,
                             is_binary := some true } }
      else
        { prediction := some "benign", confidence := some 0.8,
          threat_type := some "Clean File", timestamp := some now,
          features := some { file_size := some file_size, extension := some file_extension,
                             is_binary := some true } }
    | some raw =>
      let content := lowerList raw.toList
      let found_patterns := malicious_patterns.filter fun p => containsSub (lowerList p.toList) content
      let malicious_count := found_patterns.length
      let threat_score : ℚ := (malicious_count : ℚ) / (malicious_patterns.length : ℚ)
      let cls : String × ℚ × String :=
        if threat_score > 0.3 then
          ("malicious", min 0.9 (0.5 + threat_score * 0.4), "Script-based Malware")
        else if threat_score > 0.1 then ("suspicious", 0.6, "Potentially Suspicious")
        else ("benign", 0.8, "Clean File")
      { prediction := some cls.1, confidence := some cls.2.1, threat_type := some cls.2.2,
        timestamp := some now,
        features := some { file_size := some file_size, extension := some file_extension,
                           malicious_patterns := some found_patterns,
                           threat_score := some threat_score,
                           pattern_count := some malicious_count } }

end FileAnalyzer

/-! ## `behavioral_analyzer_simple.py` -/

namespace BehavioralAnalyzer

def suspicious_processes : List String :=
  ["powershell.exe", "cmd.exe", "wscript.exe", "cscript.exe",
   "mshta.exe", "regsvr32.exe", "rundll32.exe"]

def suspicious_commands : List String :=
  ["DownloadString", "Invoke-Expression", "IEX", "Invoke-WebRequest",
   "net user", "net group", "wmic", "schtasks"]

/-- One process entry of a behavioral snapshot. -/
structure ProcInfo where
  pid : Nat := 0
  name : String := ""
  cmdline : List String := []
  cpu_percent : ℚ := 0
  memory_percent : ℚ := 0
deriving DecidableEq, Repr

/-- One network-connection entry; `remote_address` is an `"ip:port"` string
when present, as formatted by the collector. -/
structure ConnInfo where
  local_address : Option String := none
  remote_address : Option String := none
  status : String := ""
  pid : Option Nat := none
deriving DecidableEq, Repr

structure SystemMetrics where
  cpu_percent : ℚ := 0
  memory_percent : ℚ := 0
  disk_usage : ℚ := 0
deriving DecidableEq, Repr

/-- The dictionary built by `collect_behavioral_data`. -/
structure BehavioralData where
  timestamp : String := ""
  processes : List ProcInfo := []
  network_connections : List ConnInfo := []
  system_metrics : SystemMetrics := {}
deriving DecidableEq, Repr

/-- The live machine state that `psutil` observes at collection time: the
processes and connections surviving the collector's per-entry exception
filters, plus the sampled system metrics. -/
structure LiveEnv where
  processes : List ProcInfo := []
  connections : List ConnInfo := []
  metrics : SystemMetrics := {}
deriving DecidableEq, Repr

/-- `BehavioralAnalyzer.collect_behavioral_data`: reads the LIVE machine state
(`psutil.process_iter`, `psutil.net_connections`); connections are truncated
to the first 50. -/
def collect_behavioral_data (now : String) (env : LiveEnv) : BehavioralData :=
  { timestamp := now, processes := env.processes,
    network_connections := env.connections.take 50, system_metrics := env.metrics }

/-- `proc["name"].lower() in [p.lower() for p in self.suspicious_processes]`. -/
def procSuspicious (p : ProcInfo) : Bool :=
  (suspicious_processes.map fun s => String.mk (lowerList s.toList)).contains
    (String.mk (lowerList p.name.toList))

/-- `" ".join(proc.get("cmdline", []))`. -/
def procCmdline (p : ProcInfo) : String := String.intercalate " " p.cmdline

def malicious_ports : List Int := [4444, 8080, 9999, 1337]

/-- `BehavioralAnalyzer.analyze_behavior`.  The connection loop's
`int(conn["remote_address"].split(":")[1])` can raise `ValueError`, which the
method's blanket `except` turns into an error-shaped result. -/
def analyze_behavior (now : String) (data : BehavioralData) : ModuleResult :=
  let step1 := data.processes.foldl
    (fun acc p => if procSuspicious p then (acc.1 ++ [p], acc.2 + 0.2) else acc)
    (([] : List ProcInfo), (0 : ℚ))
  let suspicious_procs := step1.1
  let step2 := data.processes.foldl
    (fun acc p =>
      suspicious_commands.foldl
        (fun acc2 cmd =>
          if pyInLower cmd (procCmdline p) then
            (acc2.1 ++ [(p.name, cmd, procCmdline p)], acc2.2 + 0.3)
          else acc2)
        acc)
    (([] : List (String × String × String)), step1.2)
  let suspicious_cmds := step2.1
  let step3 : Except String (List ConnInfo × ℚ) := data.network_connections.foldlM
    (fun acc c =>
      match c.remote_address with
      | none => .ok acc
      | some ra =>
        if pyIn ":" ra then
          match parseIntList (((splitOnChar ':' ra.toList).get? 1).getD []) with
          | none => .error "invalid literal for int() with base 10"
          | some port =>
            if malicious_ports.contains port then .ok (acc.1 ++ [c], acc.2 + 0.1)
            else .ok acc
        else .ok acc)
    (([] : List ConnInfo), step2.2)
  match step3 with
  | .error e =>
    { threats_detected := some [], threat_types := some [], threat_level := some "error",
      overall_risk_score := some 0, timestamp := some now, error := some e }
  | .ok (suspicious_conns, risk_score) =>
    let threats : List ThreatRecord :=
      (if suspicious_procs.isEmpty then []
       else [{ ttype := "Suspicious Process", risk_level := some "medium" }]) ++
      (if suspicious_cmds.isEmpty then []
       else [{ ttype := "Suspicious Commands", risk_level := some "high" }]) ++
      (if suspicious_conns.isEmpty then []
       else [{ ttype := "Suspicious Network", risk_level := some "medium" }])
    let ttypes : List String :=
      (if suspicious_procs.isEmpty then [] else ["Suspicious Process"]) ++
      (if suspicious_cmds.isEmpty then [] else ["Suspicious Commands"]) ++
      (if suspicious_conns.isEmpty then [] else ["Suspicious Network"])
    let threat_level :=
      if risk_score ≥ 0.7 then "high" else if risk_score ≥ 0.4 then "medium" else "low"
    { threats_detected := some threats, threat_types := some ttypes,
      threat_level := some threat_level,
      overall_risk_score := some (min 10.0 (risk_score * 10)), timestamp := some now,
      analysis_summary := some (.behavioral suspicious_procs.length suspicious_cmds.length
        suspicious_conns.length) }

end BehavioralAnalyzer

/-! ## `encrypted_detector_simple.py` -/

namespace EncryptedThreatDetector

def suspicious_domains : List String :=
  ["malware.com", "evil.org", "bad.net", "suspicious.info"]

def suspicious_ports : List Int := [4444, 8080, 9999, 1337, 31337]

/-- One connection record of a network observation (`conn.get("port", 0)`). -/
structure NetConn where
  port : Option Int := none
deriving DecidableEq, Repr

structure NetworkData where
  tls_hosts : List String := []
  dns_queries : List String := []
  connections : List NetConn := []
deriving DecidableEq, Repr

/-- `_is_suspicious_domain`: any fixed suspicious domain occurs as a substring
of the lowered host name. -/
def isSuspiciousDomain (domain : String) : Bool :=
  suspicious_domains.any fun s => containsSub s.toList (lowerList domain.toList)

def isLowerAlpha (c : Char) : Bool := 'a' ≤ c && c ≤ 'z'

def isDigitCh (c : Char) : Bool := '0' ≤ c && c ≤ '9'

/-- A match of `r'[a-z]{8,}\.com'` anchored at the head of `cs`: since `.` is
not a lowercase letter, backtracking search succeeds exactly when the maximal
lowercase run has length at least 8 and is followed by `".com"`. -/
def dgaComAt (cs : List Char) : Bool :=
  let run := cs.takeWhile isLowerAlpha
  8 ≤ run.length && startsWithL ".com".toList (cs.drop run.length)

/-- A match of `r'[a-z]{4,}\d{4,}\.net'` anchored at the head of `cs`. -/
def dgaNetAt (cs : List Char) : Bool :=
  let run := cs.takeWhile isLowerAlpha
  let rest := cs.drop run.length
  let digits := rest.takeWhile isDigitCh
  4 ≤ run.length && (4 ≤ digits.length && startsWithL ".net".toList (rest.drop digits.length))

/-- `re.search`: the anchored matcher succeeds at some suffix. -/
def searchAt (p : List Char → Bool) : List Char → Bool
  | [] => p []
  | c :: t => p (c :: t) || searchAt p t

/-- `_is_dga_domain`. -/
def isDgaDomain (domain : String) : Bool :=
  let dl := lowerList domain.toList
  searchAt dgaComAt dl || searchAt dgaNetAt dl

/-- `_is_suspicious_connection`. -/
def isSuspiciousConnection (c : NetConn) : Bool :=
  suspicious_ports.contains (c.port.getD 0)

/-- `EncryptedThreatDetector.detect_encrypted_threats`.  Each loop appends one
threat record per suspicious item, so the loops are translated by
`filter`/`map` in loop order (hosts, then DNS queries, then connections). -/
def detect_encrypted_threats (now : String) (network_data : NetworkData) : ModuleResult :=
  let badHosts := network_data.tls_hosts.filter isSuspiciousDomain
  let badQueries := network_data.dns_queries.filter isDgaDomain
  let badConns := network_data.connections.filter isSuspiciousConnection
  let risk_score : ℚ := 0.2 * badHosts.length + 0.3 * badQueries.length + 0.1 * badConns.length
  let threats : List ThreatRecord :=
    badHosts.map (fun _ => { ttype := "Suspicious TLS Host", risk_level := some "medium" }) ++
    badQueries.map (fun _ => { ttype := "DGA Domain", risk_level := some "high" }) ++
    badConns.map (fun _ => { ttype := "Suspicious Connection", risk_level := some "medium" })
  let ttypes : List String :=
    badHosts.map (fun _ => "Suspicious TLS Host") ++
    badQueries.map (fun _ => "DGA Domain") ++
    badConns.map (fun _ => "Suspicious Connection")
  let threat_level :=
    if risk_score ≥ 0.6 then "high" else if risk_score ≥ 0.3 then "medium" else "low"
  { threats_detected := some threats, threat_types := some ttypes,
    threat_level := some threat_level,
    overall_risk_score := some (min 10.0 (risk_score * 10)), timestamp := some now,
    analysis_summary := some (.encrypted network_data.tls_hosts.length
      network_data.dns_queries.length network_data.connections.length) }

end EncryptedThreatDetector

/-! ## `social_engineering_detector_simple.py` -/

namespace SocialEngineeringDetector

def urgency_keywords : List String :=
  ["urgent", "immediately", "asap", "expires", "limited time",
   "act now", "don\x27t wait", "last chance", "final notice"]

def authority_keywords : List String :=
  ["bank", "paypal", "amazon", "microsoft", "apple", "google",
   "irs", "fbi", "police", "court", "legal", "official"]

def suspicious_urls : List String :=
  ["bit.ly", "tinyurl.com", "goo.gl", "t.co", "short.link"]

def phishing_indicators : List String :=
  ["verify account", "update information", "suspended account",
   "security breach", "unusual activity", "click here"]

/-- The email part of a communication bundle. -/
structure EmailData where
  subject : String := ""
  sender : String := ""
  content : String := ""
deriving DecidableEq, Repr

/-- A communication bundle; `email = none` models an absent (or empty, hence
falsy) email dictionary, and an empty `content` string is falsy. -/
structure CommData where
  email : Option EmailData := none
  urls : List String := []
  content : String := ""
deriving DecidableEq, Repr

/-- The dictionary returned by the `_analyze_*` helpers. -/
structure SEAnalysis where
  suspicious : Bool
  risk_score : ℚ
  risk_level : String
  indicators : List String
  urgency_score : Option Nat := none
  authority_score : Option Nat := none
  phishing_score : Option Nat := none
  url : Option String := none
deriving DecidableEq, Repr

/-- `_is_suspicious_domain` (spoofed-freemail list, exact membership). -/
def isSuspiciousSenderDomain (domain : String) : Bool :=
  ["gmail.com", "yahoo.com", "hotmail.com", "outlook.com"].contains domain

/-- `_is_typosquatting`. -/
def isTyposquatting (url : String) : Bool :=
  ["goog1e", "amaz0n", "paypa1", "micr0soft", "app1e"].any fun p =>
    containsSub p.toList (lowerList url.toList)

/-- `_analyze_email`. -/
def analyze_email (email_data : EmailData) : SEAnalysis :=
  let content := String.mk (lowerList email_data.content.toList)
  let subject := String.mk (lowerList email_data.subject.toList)
  let sender := String.mk (lowerList email_data.sender.toList)
  let urgency_count := (urgency_keywords.filter fun k => pyIn k content || pyIn k subject).length
  let authority_count := (authority_keywords.filter fun k => pyIn k content || pyIn k subject).length
  let phishing_count := (phishing_indicators.filter fun k => pyIn k content).length
  let risk1 : ℚ := if urgency_count > 0 then 0.2 else 0
  let risk2 : ℚ := if authority_count > 0 then 0.2 else 0
  let risk3 : ℚ := if phishing_count > 0 then 0.3 else 0
  let risk4 : ℚ :=
    if pyIn "@" sender then
      let domain := String.mk (((splitOnChar '@' sender.toList).get? 1).getD [])
      if isSuspiciousSenderDomain domain then 0.2 else 0
    else 0
  let inds : List String :=
    (if urgency_count > 0 then ["Urgency detected (" ++ toString urgency_count ++ " keywords)"] else []) ++
    (if authority_count > 0 then ["Authority claimed (" ++ toString authority_count ++ " keywords)"] else []) ++
    (if phishing_count > 0 then ["Phishing indicators (" ++ toString phishing_count ++ " found)"] else []) ++
    (if risk4 > 0 then ["Suspicious sender domain"] else [])
  let risk_score := risk1 + risk2 + risk3 + risk4
  { suspicious := risk_score > 0.3, risk_score := risk_score,
    risk_level := if risk_score > 0.6 then "high" else if risk_score > 0.3 then "medium" else "low",
    indicators := inds, urgency_score := some urgency_count,
    authority_score := some authority_count, phishing_score := some phishing_count }

/-- `_analyze_url`. -/
def analyze_url (url : String) : SEAnalysis :=
  let url_lower := String.mk (lowerList url.toList)
  let shortened := suspicious_urls.any fun s => pyIn s url_lower
  let typo := isTyposquatting url
  let badTld := [".tk", ".ml", ".ga", ".cf"].any fun suf =>
    startsWithL suf.toList.reverse url_lower.toList.reverse
  let risk_score : ℚ := (if shortened then 0.3 else 0) + (if typo then 0.4 else 0) +
    (if badTld then 0.2 else 0)
  let inds : List String :=
    (if shortened then ["Shortened URL detected"] else []) ++
    (if typo then ["Possible typosquatting"] else []) ++
    (if badTld then ["Suspicious TLD"] else [])
  { suspicious := risk_score > 0.3, risk_score := risk_score,
    risk_level := if risk_score > 0.6 then "high" else if risk_score > 0.3 then "medium" else "low",
    indicators := inds, url := some url }

/-- `_analyze_content`. -/
def analyze_content (content : String) : SEAnalysis :=
  let content_lower := String.mk (lowerList content.toList)
  let urgency_count := (urgency_keywords.filter fun k => pyIn k content_lower).length
  let authority_count := (authority_keywords.filter fun k => pyIn k content_lower).length
  let phishing_count := (phishing_indicators.filter fun k => pyIn k content_lower).length
  let risk_score : ℚ := (if urgency_count > 0 then 0.2 else 0) +
    (if authority_count > 0 then 0.2 else 0) + (if phishing_count > 0 then 0.3 else 0)
  let inds : List String :=
    (if urgency_count > 0 then ["Urgency detected (" ++ toString urgency_count ++ " keywords)"] else []) ++
    (if authority_count > 0 then ["Authority claimed (" ++ toString authority_count ++ " keywords)"] else []) ++
    (if phishing_count > 0 then ["Phishing indicators (" ++ toString phishing_count ++ " found)"] else [])
  { suspicious := risk_score > 0.3, risk_score := risk_score,
    risk_level := if risk_score > 0.6 then "high" else if risk_score > 0.3 then "medium" else "low",
    indicators := inds, urgency_score := some urgency_count,
    authority_score := some authority_count, phishing_score := some phishing_count }

/-- `SocialEngineeringDetector.detect_social_engineering`. -/
def detect_social_engineering (now : String) (data : CommData) : ModuleResult :=
  let emailPart : List SEAnalysis :=
    match data.email with
    | none => []
    | some ed => let r := analyze_email ed; if r.suspicious then [r] else []
  let urlParts : List SEAnalysis :=
    (data.urls.map analyze_url).filter (·.suspicious)
  let contentPart : List SEAnalysis :=
    if data.content = "" then []
    else let r := analyze_content data.content; if r.suspicious then [r] else []
  let risk_score : ℚ := (emailPart.map (·.risk_score)).sum + (urlParts.map (·.risk_score)).sum +
    (contentPart.map (·.risk_score)).sum
  let threats : List ThreatRecord :=
    emailPart.map (fun r => { ttype := "Suspicious Email", risk_level := some r.risk_level }) ++
    urlParts.map (fun r => { ttype := "Suspicious URL", risk_level := some r.risk_level }) ++
    contentPart.map (fun r => { ttype := "Suspicious Content", risk_level := some r.risk_level })
  let ttypes : List String :=
    emailPart.map (fun _ => "Suspicious Email") ++
    urlParts.map (fun _ => "Suspicious URL") ++
    contentPart.map (fun _ => "Suspicious Content")
  let threat_level :=
    if risk_score ≥ 0.6 then "high" else if risk_score ≥ 0.3 then "medium" else "low"
  { threats_detected := some threats, threat_types := some ttypes,
    threat_level := some threat_level,
    overall_risk_score := some (min 10.0 (risk_score * 10)), timestamp := some now,
    analysis_summary := some (.social data.email.isSome data.urls.length (data.content ≠ "")) }

end SocialEngineeringDetector

/-! ## `ensemble_detector_simple.py` -/

namespace EnhancedThreatDetector

open BehavioralAnalyzer EncryptedThreatDetector SocialEngineeringDetector

/-- The value stored under `"system_data"`.  The Coordinator only tests the
key's presence and never reads this value. -/
structure SystemData where
  payload : String := ""
deriving DecidableEq, Repr

/-- The input bundle passed to `detect_threats`; each `Option` field mirrors
the presence of the corresponding key in the `data` dictionary. -/
structure InputBundle where
  file_path : Option String := none
  system_data : Option SystemData := none
  network_data : Option NetworkData := none
  communication_data : Option CommData := none
deriving DecidableEq, Repr

/-- The scoring callables the Coordinator dispatches to
(`self.signature_detector.detect_threats`, `self.file_analyzer.predict`,
`self.behavioral_analyzer.collect_behavioral_data` / `analyze_behavior`,
`self.encrypted_detector.detect_encrypted_threats`,
`self.social_engineering_detector.detect_social_engineering`).
`Except.error` models a raised exception; `collectBehavioral` takes no
argument because the collector reads the live machine state. -/
structure Adapters where
  sigDetect : String → Except String ModuleResult
  filePredict : String → Except String ModuleResult
  collectBehavioral : Except String BehavioralData
  analyzeBehavior : BehavioralData → Except String ModuleResult
  encryptedDetect : NetworkData → Except String ModuleResult
  socialDetect : CommData → Except String ModuleResult

/-- The error-shaped `ModuleResult` the Coordinator stores when an adapter
invocation raises: `{"error": str(e)}` and nothing else. -/
def errResult (e : String) : ModuleResult := { error := some e }

/-- The default `detection_weights` dictionary set in `__init__`. -/
def defaultWeights : List (String × ℚ) :=
  [("signature", 0.25), ("file_analysis", 0.20), ("behavioral", 0.20),
   ("encrypted", 0.15), ("social_engineering", 0.20)]

/-- The mutable pieces of `results` accumulated while running the modules. -/
structure PartialResults where
  threats_detected : List ThreatRecord := []
  threat_types : List String := []
  module_results : List (String × ModuleResult) := []
deriving DecidableEq, Repr

/-- One module's `(risk, confidence)` addition inside the weight loop of
`_calculate_ensemble_decision`. -/
def moduleContrib (module_name : String) (weight : ℚ) (module_result : ModuleResult) : ℚ × ℚ :=
  if module_result.error = none then
    if module_name = "signature" then
      if module_result.detected.getD false then
        (weight * module_result.confidence.getD 0 * 10, weight * module_result.confidence.getD 0)
      else (0, 0)
    else if module_name = "file_analysis" then
      if module_result.prediction = some "malicious" ∨ module_result.prediction = some "suspicious" then
        (weight * module_result.confidence.getD 0 * 10, weight * module_result.confidence.getD 0)
      else (0, 0)
    else if module_name = "behavioral" ∨ module_name = "encrypted" ∨ module_name = "social_engineering" then
      let risk_score := module_result.overall_risk_score.getD 0
      (weight * risk_score, weight * (risk_score / 10))
    else (0, 0)
  else (0, 0)

/-- The `(total_risk_score, total_confidence)` accumulation of
`_calculate_ensemble_decision`; a module name missing from `module_results`
is looked up as the empty dictionary. -/
def ensembleTotals (detection_weights : List (String × ℚ))
    (module_results : List (String × ModuleResult)) : ℚ × ℚ :=
  detection_weights.foldl
    (fun acc kv =>
      (acc.1 + (moduleContrib kv.1 kv.2 ((dictLookup module_results kv.1).getD emptyResult)).1,
       acc.2 + (moduleContrib kv.1 kv.2 ((dictLookup module_results kv.1).getD emptyResult)).2))
    ((0 : ℚ), (0 : ℚ))

/-- The fields `_calculate_ensemble_decision` merges into `results`. -/
structure EnsembleDecision where
  overall_risk_score : ℚ
  threat_level : String
  confidence : ℚ
  threat_count : Nat
deriving DecidableEq, Repr

/-- `EnhancedThreatDetector._calculate_ensemble_decision` (its blanket
`except` is unreachable in the model: the computation is total). -/
def calculate_ensemble_decision (detection_weights : List (String × ℚ))
    (results : PartialResults) : EnsembleDecision :=
  let totals := ensembleTotals detection_weights results.module_results
  let total_risk_score := totals.1
  let total_confidence := totals.2
  let threat_level :=
    if total_risk_score ≥ 7.0 then "high"
    else if total_risk_score ≥ 4.0 then "medium"
    else "low"
  { overall_risk_score := min 10.0 total_risk_score, threat_level := threat_level,
    confidence := min 1.0 total_confidence, threat_count := results.threats_detected.length }

/-- The final `results` dictionary returned by `detect_threats`. -/
structure Results where
  timestamp : String
  threats_detected : List ThreatRecord
  threat_types : List String
  overall_risk_score : ℚ
  threat_level : String
  confidence : ℚ
  module_results : List (String × ModuleResult)
  threat_count : Nat
deriving DecidableEq, Repr

/-- `EnhancedThreatDetector.detect_threats`: runs each module whose input is
present, isolating each invocation behind its own `try`/`except`; each `if`
below appends that module's threat records and threat types exactly when the
source's post-invocation check fires.  (The outer `except` is unreachable in
the model: everything after the per-module blocks is total.) -/
def detect_threats (a : Adapters) (detection_weights : List (String × ℚ))
    (now : String) (data : InputBundle) : Results :=
  let pr0 : PartialResults := {}
  let pr1 :=
    match data.file_path with
    | none => pr0
    | some fp =>
      match a.sigDetect fp with
      | .error e => { pr0 with module_results := pr0.module_results ++ [("signature", errResult e)] }
      | .ok sig_result =>
        { threats_detected := pr0.threats_detected ++
            (if sig_result.detected.getD false then
              [{ ttype := "Signature Match", module := some "signature" }] else []),
          threat_types := pr0.threat_types ++
            (if sig_result.detected.getD false then ["Signature Match"] else []),
          module_results := pr0.module_results ++ [("signature", sig_result)] }
  let pr2 :=
    match data.file_path with
    | none => pr1
    | some fp =>
      match a.filePredict fp with
      | .error e => { pr1 with module_results := pr1.module_results ++ [("file_analysis", errResult e)] }
      | .ok file_result =>
        let positive := file_result.prediction = some "malicious" ∨
          file_result.prediction = some "suspicious"
        { threats_detected := pr1.threats_detected ++
            (if positive then [{ ttype := "File-based Threat", module := some "file_analysis" }] else []),
          threat_types := pr1.threat_types ++ (if positive then ["File-based Threat"] else []),
          module_results := pr1.module_results ++ [("file_analysis", file_result)] }
  let pr3 :=
    match data.system_data with
    | none => pr2
    | some _ =>
      match a.collectBehavioral.bind a.analyzeBehavior with
      | .error e => { pr2 with module_results := pr2.module_results ++ [("behavioral", errResult e)] }
      | .ok behavioral_result =>
        let fired := ¬(behavioral_result.threats_detected.getD []).isEmpty
        { threats_detected := pr2.threats_detected ++
            (if fired then behavioral_result.threats_detected.getD [] else []),
          threat_types := pr2.threat_types ++
            (if fired then behavioral_result.threat_types.getD [] else []),
          module_results := pr2.module_results ++ [("behavioral", behavioral_result)] }
  let pr4 :=
    match data.network_data with
    | none => pr3
    | some nd =>
      match a.encryptedDetect nd with
      | .error e => { pr3 with module_results := pr3.module_results ++ [("encrypted", errResult e)] }
      | .ok encrypted_result =>
        let fired := ¬(encrypted_result.threats_detected.getD []).isEmpty
        { threats_detected := pr3.threats_detected ++
            (if fired then encrypted_result.threats_detected.getD [] else []),
          threat_types := pr3.threat_types ++
            (if fired then encrypted_result.threat_types.getD [] else []),
          module_results := pr3.module_results ++ [("encrypted", encrypted_result)] }
  let pr5 :=
    match data.communication_data with
    | none => pr4
    | some cd =>
      match a.socialDetect cd with
      | .error e => { pr4 with module_results := pr4.module_results ++ [("social_engineering", errResult e)] }
      | .ok se_result =>
        let fired := ¬(se_result.threats_detected.getD []).isEmpty
        { threats_detected := pr4.threats_detected ++
            (if fired then se_result.threats_detected.getD [] else []),
          threat_types := pr4.threat_types ++
            (if fired then se_result.threat_types.getD [] else []),
          module_results := pr4.module_results ++ [("social_engineering", se_result)] }
  let d := calculate_ensemble_decision detection_weights pr5
  { timestamp := now, threats_detected := pr5.threats_detected,
    threat_types := pr5.threat_types, overall_risk_score := d.overall_risk_score,
    threat_level := d.threat_level, confidence := d.confidence,
    module_results := pr5.module_results, threat_count := d.threat_count }

/-- A value of the `new_weights` dictionary: either a number or something
non-numeric that makes `sum(...)` raise `TypeError`. -/
inductive WeightValue where
  | num (q : ℚ)
  | nonNumeric (desc : String)
deriving DecidableEq, Repr

/-- `sum(new_weights.values())`: adds left to right, raising at the first
non-numeric value. -/
def sumWeightValues (vs : List WeightValue) : Except String ℚ :=
  vs.foldlM
    (fun acc v =>
      match v with
      | .num q => .ok (acc + q)
      | .nonNumeric d => .error ("unsupported operand type for +: " ++ d))
    (0 : ℚ)

/-- Numeric view of a weight value (only reached when the sum succeeded, so
every value is numeric; the `nonNumeric` branch is unreachable there). -/
def WeightValue.toQ : WeightValue → ℚ
  | .num q => q
  | .nonNumeric _ => 0

/-- `EnhancedThreatDetector.update_detection_weights`: returns the new
`self.detection_weights` given the current one.  A raised `TypeError` is
caught by the method's `except`, which only prints, leaving the stored
weights unchanged. -/
def update_detection_weights (detection_weights : List (String × ℚ))
    (new_weights : List (String × WeightValue)) : List (String × ℚ) :=
  match sumWeightValues (new_weights.map Prod.snd) with
  | .error _ => detection_weights
  | .ok total_weight =>
    if total_weight > 0 then
      new_weights.map fun kv => (kv.1, kv.2.toQ / total_weight)
    else defaultWeights

/-- The real composition assembled in `__init__`, closed over the modelled
file system and the live machine state: every adapter is total, so every
slot returns `Except.ok`. -/
def standardAdapters (fs : FileSystem) (env : LiveEnv) (now : String) : Adapters where
  sigDetect := fun p => .ok (SignatureDetector.detect_threats fs now p)
  filePredict := fun p => .ok (FileAnalyzer.predict fs now p)
  collectBehavioral := .ok (collect_behavioral_data now env)
  analyzeBehavior := fun bd => .ok (analyze_behavior now bd)
  encryptedDetect := fun nd => .ok (detect_encrypted_threats now nd)
  socialDetect := fun cd => .ok (detect_social_engineering now cd)

end EnhancedThreatDetector

/-! ## Supporting lemmas -/

open SignatureDetector FileAnalyzer BehavioralAnalyzer EncryptedThreatDetector
open SocialEngineeringDetector EnhancedThreatDetector

theorem dictLookup_mem {β : Type} {l : List (String × β)} {k : String} {v : β}
    (h : dictLookup l k = some v) : (k, v) ∈ l := by
  induction l with
  | nil => simp [dictLookup] at h
  | cons p t ih =>
    rw [dictLookup] at h
    by_cases hk : p.1 = k
    · rw [if_pos hk] at h
      cases h
      subst hk
      exact List.mem_cons_self _ _
    · rw [if_neg hk] at h
      exact List.mem_cons_of_mem _ (ih h)

theorem dictLookup_filterNe {β : Type} (l : List (String × β)) (k key : String) (hk : k ≠ key) :
    dictLookup (l.filter fun p => p.1 != key) k = dictLookup l k := by
  induction l with
  | nil => rfl
  | cons p t ih =>
    by_cases hpk : p.1 = key
    · rw [List.filter_cons_of_neg (by simp [hpk]), ih, dictLookup,
        if_neg (fun h2 => hk (by rw [← h2, hpk]))]
    · rw [List.filter_cons_of_pos (by simp [hpk]), dictLookup, dictLookup]
      by_cases hq : p.1 = k
      · rw [if_pos hq, if_pos hq]
      · rw [if_neg hq, if_neg hq, ih]

theorem dictLookup_filterSelf {β : Type} (l : List (String × β)) (key : String) :
    dictLookup (l.filter fun p => p.1 != key) key = none := by
  induction l with
  | nil => rfl
  | cons p t ih =>
    by_cases hpk : p.1 = key
    · rw [List.filter_cons_of_neg (by simp [hpk])]
      exact ih
    · rw [List.filter_cons_of_pos (by simp [hpk]), dictLookup, if_neg hpk]
      exact ih

theorem moduleContrib_ofError (n : String) (w : ℚ) (r : ModuleResult)
    (h : r.error ≠ none) : moduleContrib n w r = (0, 0) := by
  unfold moduleContrib
  rw [if_neg h]

theorem moduleContrib_emptyResult (n : String) (w : ℚ) :
    moduleContrib n w emptyResult = (0, 0) := by
  unfold moduleContrib emptyResult
  split_ifs <;> simp_all

theorem ensembleTotals_eq_sums (w : List (String × ℚ)) (mrs : List (String × ModuleResult)) :
    ensembleTotals w mrs =
      ((w.map fun kv => (moduleContrib kv.1 kv.2 ((dictLookup mrs kv.1).getD emptyResult)).1).sum,
       (w.map fun kv => (moduleContrib kv.1 kv.2 ((dictLookup mrs kv.1).getD emptyResult)).2).sum) := by
  unfold ensembleTotals
  have key : ∀ (ws : List (String × ℚ)) (acc : ℚ × ℚ),
      ws.foldl
        (fun acc kv =>
          (acc.1 + (moduleContrib kv.1 kv.2 ((dictLookup mrs kv.1).getD emptyResult)).1,
           acc.2 + (moduleContrib kv.1 kv.2 ((dictLookup mrs kv.1).getD emptyResult)).2))
        acc =
      (acc.1 + (ws.map fun kv => (moduleContrib kv.1 kv.2 ((dictLookup mrs kv.1).getD emptyResult)).1).sum,
       acc.2 + (ws.map fun kv => (moduleContrib kv.1 kv.2 ((dictLookup mrs kv.1).getD emptyResult)).2).sum) := by
    intro ws
    induction ws with
    | nil => intro acc; simp
    | cons kv t ih =>
      intro acc
      rw [List.foldl_cons, ih]
      simp only [List.map_cons, List.sum_cons]
      rw [Prod.mk.injEq]
      constructor <;> ring
  rw [key w (0, 0)]
  simp

theorem ensembleTotals_congr (w : List (String × ℚ)) (A B : List (String × ModuleResult))
    (h : ∀ n q, moduleContrib n q ((dictLookup A n).getD emptyResult) =
      moduleContrib n q ((dictLookup B n).getD emptyResult)) :
    ensembleTotals w A = ensembleTotals w B := by
  rw [ensembleTotals_eq_sums, ensembleTotals_eq_sums]
  have h1 : (fun kv : String × ℚ => (moduleContrib kv.1 kv.2 ((dictLookup A kv.1).getD emptyResult)).1)
      = (fun kv : String × ℚ => (moduleContrib kv.1 kv.2 ((dictLookup B kv.1).getD emptyResult)).1) := by
    funext kv
    rw [h kv.1 kv.2]
  have h2 : (fun kv : String × ℚ => (moduleContrib kv.1 kv.2 ((dictLookup A kv.1).getD emptyResult)).2)
      = (fun kv : String × ℚ => (moduleContrib kv.1 kv.2 ((dictLookup B kv.1).getD emptyResult)).2) := by
    funext kv
    rw [h kv.1 kv.2]
  rw [h1, h2]

theorem ensembleTotals_nilResults (w : List (String × ℚ)) :
    ensembleTotals w [] = (0, 0) := by
  rw [ensembleTotals_eq_sums]
  have hz1 : (fun kv : String × ℚ =>
      (moduleContrib kv.1 kv.2 ((dictLookup ([] : List (String × ModuleResult)) kv.1).getD emptyResult)).1)
      = fun _ => (0 : ℚ) := by
    funext kv
    rw [show dictLookup ([] : List (String × ModuleResult)) kv.1 = none from rfl,
      Option.getD_none, moduleContrib_emptyResult]
  have hz2 : (fun kv : String × ℚ =>
      (moduleContrib kv.1 kv.2 ((dictLookup ([] : List (String × ModuleResult)) kv.1).getD emptyResult)).2)
      = fun _ => (0 : ℚ) := by
    funext kv
    rw [show dictLookup ([] : List (String × ModuleResult)) kv.1 = none from rfl,
      Option.getD_none, moduleContrib_emptyResult]
  rw [hz1, hz2]
  simp

theorem ensembleTotals_dropErrorSlot (w : List (String × ℚ))
    (L : List (String × ModuleResult)) (key : String)
    (h : ∀ r, dictLookup L key = some r → r.error ≠ none) :
    ensembleTotals w L = ensembleTotals w (L.filter fun p => p.1 != key) := by
  apply ensembleTotals_congr
  intro n q
  by_cases hk : n = key
  · subst hk
    rw [dictLookup_filterSelf]
    cases hl : dictLookup L n with
    | none => rfl
    | some r =>
      simp only [Option.getD_some, Option.getD_none]
      rw [moduleContrib_ofError n q r (h r hl), moduleContrib_emptyResult]
  · rw [dictLookup_filterNe L n key hk]

/-! ## C5: a bundle with no optional part yields the empty verdict -/

/-- C5: for every adapter set, weight map and timestamp, an input bundle with
none of the optional parts present makes `detect_threats` return a verdict
with an empty threat-record sequence, overall risk score 0.0, threat level
"low", confidence 0.0, and an empty per-module result mapping. -/
theorem detect_empty_bundle (a : Adapters) (w : List (String × ℚ)) (now : String) :
    detect_threats a w now {} =
      { timestamp := now, threats_detected := [], threat_types := [],
        overall_risk_score := 0, threat_level := "low", confidence := 0,
        module_results := [], threat_count := 0 } := by
  dsimp only [EnhancedThreatDetector.detect_threats, calculate_ensemble_decision]
  rw [ensembleTotals_nilResults]
  norm_num

/-! ## C3 / C10: `update_detection_weights` -/

/-- `sum(...)` over the `snd` projection of a numeric weight map. -/
def sumSnd (l : List (String × ℚ)) : ℚ := (l.map Prod.snd).sum

theorem except_ok_bind {α β : Type} (x : α) (f : α → Except String β) :
    (Except.ok x >>= f) = f x := rfl

theorem except_error_bind {α β : Type} (e : String) (f : α → Except String β) :
    ((Except.error e : Except String α) >>= f) = Except.error e := rfl

theorem sumWeightValues_ofNums (qs : List ℚ) :
    sumWeightValues (qs.map WeightValue.num) = .ok qs.sum := by
  unfold sumWeightValues
  have key : ∀ (qs : List ℚ) (acc : ℚ),
      (qs.map WeightValue.num).foldlM
        (fun acc v =>
          match v with
          | WeightValue.num q => Except.ok (acc + q)
          | WeightValue.nonNumeric d => Except.error ("unsupported operand type for +: " ++ d))
        acc = Except.ok (acc + qs.sum) := by
    intro qs
    induction qs with
    | nil =>
      intro acc
      simp only [List.map_nil, List.foldlM_nil, List.sum_nil, add_zero]
      rfl
    | cons q t ih =>
      intro acc
      simp only [List.map_cons, List.foldlM_cons, List.sum_cons, except_ok_bind]
      rw [ih, add_assoc]
  rw [key qs 0, zero_add]

theorem sumWeightValues_nonNumeric (vs : List WeightValue)
    (h : ∃ d, WeightValue.nonNumeric d ∈ vs) :
    ∃ e, sumWeightValues vs = .error e := by
  unfold sumWeightValues
  obtain ⟨d, hd⟩ := h
  have key : ∀ (vs : List WeightValue) (acc : ℚ), WeightValue.nonNumeric d ∈ vs →
      ∃ e, vs.foldlM
        (fun acc v =>
          match v with
          | WeightValue.num q => Except.ok (acc + q)
          | WeightValue.nonNumeric d => Except.error ("unsupported operand type for +: " ++ d))
        acc = Except.error e := by
    intro vs
    induction vs with
    | nil => intro acc hmem; simp at hmem
    | cons v t ih =>
      intro acc hmem
      cases v with
      | num q =>
        have h3 : WeightValue.nonNumeric d ∈ t := by
          cases hmem with
          | tail _ h2 => exact h2
        obtain ⟨e, he⟩ := ih (acc + q) h3
        exact ⟨e, by simp only [List.foldlM_cons, except_ok_bind]; exact he⟩
      | nonNumeric d2 =>
        exact ⟨"unsupported operand type for +: " ++ d2,
          by simp only [List.foldlM_cons, except_error_bind]⟩
  exact key vs 0 hd

theorem sum_map_div (l : List ℚ) (s : ℚ) : (l.map fun q => q / s).sum = l.sum / s := by
  induction l with
  | nil => simp
  | cons q t ih => simp [ih, add_div]

/-- C3: for every numeric weight map `W`: if `sum(W) > 0` the stored weights
become each entry divided by the sum (hence they sum to exactly 1); if
`sum(W) ≤ 0` the stored weights are reset to the built-in defaults. -/
theorem sumSnd_map_div (w : List (String × ℚ)) (s : ℚ) :
    sumSnd (w.map fun kv => (kv.1, kv.2 / s)) = sumSnd w / s := by
  unfold sumSnd
  induction w with
  | nil => simp
  | cons kv t ih => simp_all [add_div]

/-- C3: for every numeric weight map `W`: if `sum(W) > 0` the stored weights
become each entry divided by the sum (hence they sum to exactly 1); if
`sum(W) ≤ 0` the stored weights are reset to the built-in defaults. -/
theorem update_weights_normalizes (cur : List (String × ℚ)) (w : List (String × ℚ)) :
    (0 < sumSnd w →
      update_detection_weights cur (w.map fun kv => (kv.1, WeightValue.num kv.2)) =
        (w.map fun kv => (kv.1, kv.2 / sumSnd w)) ∧
      sumSnd (update_detection_weights cur (w.map fun kv => (kv.1, WeightValue.num kv.2))) = 1) ∧
    (sumSnd w ≤ 0 →
      update_detection_weights cur (w.map fun kv => (kv.1, WeightValue.num kv.2)) =
        defaultWeights) := by
  have hmap : (w.map fun kv => (kv.1, WeightValue.num kv.2)).map Prod.snd
      = (w.map Prod.snd).map WeightValue.num := by
    rw [List.map_map, List.map_map]
    rfl
  have hsum : sumWeightValues ((w.map fun kv => (kv.1, WeightValue.num kv.2)).map Prod.snd)
      = .ok (sumSnd w) := by
    rw [hmap, sumWeightValues_ofNums]
    rfl
  constructor
  · intro hpos
    have heq : update_detection_weights cur (w.map fun kv => (kv.1, WeightValue.num kv.2)) =
        (w.map fun kv => (kv.1, kv.2 / sumSnd w)) := by
      unfold update_detection_weights
      rw [hsum]
      dsimp only
      rw [if_pos hpos, List.map_map]
      rfl
    refine ⟨heq, ?_⟩
    rw [heq, sumSnd_map_div]
    exact div_self (ne_of_gt hpos)
  · intro hle
    unfold update_detection_weights
    rw [hsum]
    dsimp only
    rw [if_neg (not_lt.mpr hle)]

/-- C3 witness: a two-entry weight map with sum 8 is normalized to quarters
summing to 1, and a map with non-positive sum resets to the defaults. -/
theorem update_weights_normalizes_witness :
    (0 < sumSnd [("signature", (2 : ℚ)), ("behavioral", (6 : ℚ))] ∧
      update_detection_weights defaultWeights
        [("signature", WeightValue.num 2), ("behavioral", WeightValue.num 6)] =
        [("signature", (2 : ℚ) / 8), ("behavioral", (6 : ℚ) / 8)] ∧
      sumSnd (update_detection_weights defaultWeights
        [("signature", WeightValue.num 2), ("behavioral", WeightValue.num 6)]) = 1) ∧
    (sumSnd [("signature", (-1 : ℚ))] ≤ 0 ∧
      update_detection_weights defaultWeights [("signature", WeightValue.num (-1))] =
        defaultWeights) := by
  have hlist : ([("signature", WeightValue.num 2), ("behavioral", WeightValue.num 6)] :
      List (String × WeightValue)) =
      List.map (fun kv => (kv.1, WeightValue.num kv.2))
        [("signature", (2 : ℚ)), ("behavioral", (6 : ℚ))] := rfl
  have hlist2 : ([("signature", WeightValue.num (-1))] : List (String × WeightValue)) =
      List.map (fun kv => (kv.1, WeightValue.num kv.2)) [("signature", (-1 : ℚ))] := rfl
  have h := (update_weights_normalizes defaultWeights
    [("signature", (2 : ℚ)), ("behavioral", (6 : ℚ))]).1 (by norm_num [sumSnd])
  have hd := (update_weights_normalizes defaultWeights [("signature", (-1 : ℚ))]).2
    (by norm_num [sumSnd])
  refine ⟨⟨by norm_num [sumSnd], ?_, ?_⟩, by norm_num [sumSnd], ?_⟩
  · rw [hlist, h.1]
    norm_num [sumSnd]
  · rw [hlist]
    exact h.2
  · rw [hlist2]
    exact hd

/-- C10: a weight map whose values cannot be summed (here: containing a
non-numeric value) makes `sum(...)` raise; the `except` swallows the fault
and the stored weights stay exactly as they were — neither normalized nor
reset to the defaults, with no exception reaching the caller (the model's
update function is total). -/
theorem update_weights_nonNumeric_unchanged (cur : List (String × ℚ))
    (nw : List (String × WeightValue))
    (h : ∃ p ∈ nw, ∃ d, p.2 = WeightValue.nonNumeric d) :
    update_detection_weights cur nw = cur := by
  obtain ⟨p, hp, d, hd⟩ := h
  have hmem : WeightValue.nonNumeric d ∈ nw.map Prod.snd := by
    rw [← hd]
    exact List.mem_map_of_mem Prod.snd hp
  obtain ⟨e, he⟩ := sumWeightValues_nonNumeric (nw.map Prod.snd) ⟨d, hmem⟩
  unfold update_detection_weights
  rw [he]

/-- C10 witness: a weight map holding a string value leaves the current
(non-default) stored weights untouched. -/
theorem update_weights_nonNumeric_unchanged_witness :
    (∃ p ∈ [("signature", WeightValue.num 3), ("behavioral", WeightValue.nonNumeric "str value")],
      ∃ d, p.2 = WeightValue.nonNumeric d) ∧
    update_detection_weights [("signature", (7 : ℚ))]
      [("signature", WeightValue.num 3), ("behavioral", WeightValue.nonNumeric "str value")] =
      [("signature", (7 : ℚ))] := by
  refine ⟨⟨("behavioral", WeightValue.nonNumeric "str value"), by simp, "str value", rfl⟩, ?_⟩
  exact update_weights_nonNumeric_unchanged _ _
    ⟨("behavioral", WeightValue.nonNumeric "str value"), by simp, "str value", rfl⟩

/-! ## C2: the ensemble decision formula -/

/-- The claim's per-module weighted risk addition: signature/file_analysis
contribute `weight * confidence * 10` exactly on a positive verdict, the three
score-based modules contribute `weight * overall_risk_score`. -/
def specRiskContrib (module_name : String) (weight : ℚ) (r : ModuleResult) : ℚ :=
  if module_name = "signature" then
    if r.detected.getD false then weight * r.confidence.getD 0 * 10 else 0
  else if module_name = "file_analysis" then
    if r.prediction = some "malicious" ∨ r.prediction = some "suspicious" then
      weight * r.confidence.getD 0 * 10
    else 0
  else if module_name = "behavioral" ∨ module_name = "encrypted" ∨
      module_name = "social_engineering" then
    weight * r.overall_risk_score.getD 0
  else 0

/-- The claim's per-module weighted confidence addition. -/
def specConfContrib (module_name : String) (weight : ℚ) (r : ModuleResult) : ℚ :=
  if module_name = "signature" then
    if r.detected.getD false then weight * r.confidence.getD 0 else 0
  else if module_name = "file_analysis" then
    if r.prediction = some "malicious" ∨ r.prediction = some "suspicious" then
      weight * r.confidence.getD 0
    else 0
  else if module_name = "behavioral" ∨ module_name = "encrypted" ∨
      module_name = "social_engineering" then
    weight * (r.overall_risk_score.getD 0 / 10)
  else 0

theorem moduleContrib_noError (n : String) (q : ℚ) (r : ModuleResult)
    (h : r.error = none) :
    moduleContrib n q r = (specRiskContrib n q r, specConfContrib n q r) := by
  unfold moduleContrib specRiskContrib specConfContrib
  rw [if_pos h]
  split_ifs <;> rfl

/-- C2: over any collection of non-error module results and any weight map,
`_calculate_ensemble_decision` accumulates exactly the claim's per-module
weighted risk and confidence sums; the threat level is "high" iff the
weighted risk total is at least 7.0, "medium" iff it is in [4.0, 7.0), and
"low" iff it is below 4.0; the final risk score is `min 10.0` of the risk
total and the final confidence is `min 1.0` of the confidence total. -/
theorem ensemble_decision_formula (w : List (String × ℚ))
    (mrs : List (String × ModuleResult)) (threats : List ThreatRecord)
    (ttypes : List String) (h : ∀ p ∈ mrs, (p.2).error = none) :
    let d := calculate_ensemble_decision w
      { threats_detected := threats, threat_types := ttypes, module_results := mrs }
    let totalRisk :=
      (w.map fun kv => specRiskContrib kv.1 kv.2 ((dictLookup mrs kv.1).getD emptyResult)).sum
    let totalConf :=
      (w.map fun kv => specConfContrib kv.1 kv.2 ((dictLookup mrs kv.1).getD emptyResult)).sum
    d.overall_risk_score = min 10.0 totalRisk ∧
    d.confidence = min 1.0 totalConf ∧
    (d.threat_level = "high" ↔ 7.0 ≤ totalRisk) ∧
    (d.threat_level = "medium" ↔ 4.0 ≤ totalRisk ∧ totalRisk < 7.0) ∧
    (d.threat_level = "low" ↔ totalRisk < 4.0) ∧
    d.threat_count = threats.length := by
  intro d totalRisk totalConf
  have hER : ∀ n, ((dictLookup mrs n).getD emptyResult).error = none := by
    intro n
    cases hl : dictLookup mrs n with
    | none => rfl
    | some r => exact h (n, r) (dictLookup_mem hl)
  have htot : ensembleTotals w mrs = (totalRisk, totalConf) := by
    rw [ensembleTotals_eq_sums]
    have e1 : (fun kv : String × ℚ =>
        (moduleContrib kv.1 kv.2 ((dictLookup mrs kv.1).getD emptyResult)).1)
        = fun kv : String × ℚ => specRiskContrib kv.1 kv.2 ((dictLookup mrs kv.1).getD emptyResult) := by
      funext kv
      rw [moduleContrib_noError kv.1 kv.2 _ (hER kv.1)]
    have e2 : (fun kv : String × ℚ =>
        (moduleContrib kv.1 kv.2 ((dictLookup mrs kv.1).getD emptyResult)).2)
        = fun kv : String × ℚ => specConfContrib kv.1 kv.2 ((dictLookup mrs kv.1).getD emptyResult) := by
      funext kv
      rw [moduleContrib_noError kv.1 kv.2 _ (hER kv.1)]
    rw [e1, e2]
  have hd : d =
      { overall_risk_score := min 10.0 totalRisk,
        threat_level := (if totalRisk ≥ 7.0 then "high"
          else if totalRisk ≥ 4.0 then "medium" else "low"),
        confidence := min 1.0 totalConf, threat_count := threats.length } := by
    show calculate_ensemble_decision w
      { threats_detected := threats, threat_types := ttypes, module_results := mrs } = _
    unfold calculate_ensemble_decision
    dsimp only
    rw [htot]
  rw [hd]
  refine ⟨rfl, rfl, ?_, ?_, ?_, rfl⟩
  · by_cases h7 : (7.0 : ℚ) ≤ totalRisk
    · simp [ge_iff_le, h7]
    · simp only [ge_iff_le, if_neg h7]
      constructor
      · intro hc
        split_ifs at hc <;> simp_all
      · intro hc
        exact absurd hc h7
  · by_cases h7 : (7.0 : ℚ) ≤ totalRisk
    · simp only [ge_iff_le, if_pos h7]
      constructor
      · intro hc
        simp at hc
      · rintro ⟨h4, hlt⟩
        exact absurd h7 (not_le.mpr hlt)
    · by_cases h4 : (4.0 : ℚ) ≤ totalRisk
      · simp [ge_iff_le, h7, h4, not_le.mp h7]
      · simp only [ge_iff_le, if_neg h7, if_neg h4]
        constructor
        · intro hc
          simp at hc
        · rintro ⟨hc, _⟩
          exact absurd hc h4
  · by_cases h7 : (7.0 : ℚ) ≤ totalRisk
    · simp only [ge_iff_le, if_pos h7]
      constructor
      · intro hc
        simp at hc
      · intro hc
        exact absurd (le_trans (by norm_num) h7) (not_le.mpr hc)
    · by_cases h4 : (4.0 : ℚ) ≤ totalRisk
      · simp only [ge_iff_le, if_neg h7, if_pos h4]
        constructor
        · intro hc
          simp at hc
        · intro hc
          exact absurd h4 (not_le.mpr hc)
      · simp [ge_iff_le, h7, h4, not_le.mp h4]

/-- A signature hit stored for the C2 witness. -/
def c2SigResult : ModuleResult :=
  { detected := some true, confidence := some 0.95, timestamp := some "t" }

/-- A behavioral result with score 3.0 stored for the C2 witness. -/
def c2BehResult : ModuleResult :=
  { overall_risk_score := some 3, timestamp := some "t" }

def c2Results : List (String × ModuleResult) :=
  [("signature", c2SigResult), ("behavioral", c2BehResult)]

/-- C2 witness: one signature hit (confidence 0.95, weight 0.25) and one
behavioral score 3.0 (weight 0.20) give weighted risk 2.975, confidence
0.2975, threat level "low". -/
theorem ensemble_decision_formula_witness :
    (∀ p ∈ c2Results, (p.2).error = none) ∧
    calculate_ensemble_decision defaultWeights
      { threats_detected := [{ ttype := "Signature Match", module := some "signature" }],
        threat_types := ["Signature Match"], module_results := c2Results } =
      { overall_risk_score := 2.975, threat_level := "low", confidence := 0.2975,
        threat_count := 1 } := by
  refine ⟨by decide, ?_⟩
  have h := ensemble_decision_formula defaultWeights c2Results
    [{ ttype := "Signature Match", module := some "signature" }] ["Signature Match"]
    (by decide)
  obtain ⟨h1, h2, _, _, h5, h6⟩ := h
  have hrisk : ((defaultWeights.map fun kv =>
      specRiskContrib kv.1 kv.2 ((dictLookup c2Results kv.1).getD emptyResult)).sum) = 2.975 := by
    norm_num +decide [defaultWeights, c2Results, c2SigResult, c2BehResult, dictLookup,
      emptyResult, specRiskContrib]
  have hconf : ((defaultWeights.map fun kv =>
      specConfContrib kv.1 kv.2 ((dictLookup c2Results kv.1).getD emptyResult)).sum) = 0.2975 := by
    norm_num +decide [defaultWeights, c2Results, c2SigResult, c2BehResult, dictLookup,
      emptyResult, specConfContrib]
  rw [hrisk] at h1 h5
  rw [hconf] at h2
  have hO : (calculate_ensemble_decision defaultWeights
      { threats_detected := [{ ttype := "Signature Match", module := some "signature" }],
        threat_types := ["Signature Match"],
        module_results := c2Results }).overall_risk_score = 2.975 := by
    rw [h1]
    norm_num
  have hC : (calculate_ensemble_decision defaultWeights
      { threats_detected := [{ ttype := "Signature Match", module := some "signature" }],
        threat_types := ["Signature Match"],
        module_results := c2Results }).confidence = 0.2975 := by
    rw [h2]
    norm_num
  have hL := h5.mpr (by norm_num)
  have hT : (calculate_ensemble_decision defaultWeights
      { threats_detected := [{ ttype := "Signature Match", module := some "signature" }],
        threat_types := ["Signature Match"],
        module_results := c2Results }).threat_count = 1 := by
    rw [h6]
    rfl
  have hsplit : ∀ dd : EnsembleDecision, dd.overall_risk_score = 2.975 →
      dd.threat_level = "low" → dd.confidence = 0.2975 → dd.threat_count = 1 →
      dd =
        { overall_risk_score := 2.975, threat_level := "low", confidence := 0.2975,
          threat_count := 1 } := by
    intro dd hO2 hL2 hC2 hT2
    cases dd
    simp_all
  exact hsplit _ hO hL hC hT

/-! ## C7: file-analyzer thresholds -/

/-- C7: for every existing text-decodable file, `predict` computes the threat
score as (number of the 9 fixed malicious patterns occurring, case-insensitively,
as substrings of the content)/9, and returns "malicious" with confidence
`min 0.9 (0.5 + score*0.4)` exactly when score > 0.3, "suspicious" with
confidence 0.6 exactly when 0.1 < score ≤ 0.3, and "benign" with confidence
0.8 otherwise. -/
theorem file_predict_thresholds (fs : FileSystem) (now path : String) (fd : FileData)
    (raw : String) (hf : lookupFile fs path = some fd) (ht : fd.text = some raw) :
    ((FileAnalyzer.predict fs now path).prediction,
      (FileAnalyzer.predict fs now path).confidence) =
      (if ((FileAnalyzer.malicious_patterns.filter fun p =>
            containsSub (lowerList p.toList) (lowerList raw.toList)).length : ℚ) / 9 > 0.3 then
        (some "malicious", some (min 0.9 (0.5 +
          ((FileAnalyzer.malicious_patterns.filter fun p =>
            containsSub (lowerList p.toList) (lowerList raw.toList)).length : ℚ) / 9 * 0.4)))
      else if ((FileAnalyzer.malicious_patterns.filter fun p =>
            containsSub (lowerList p.toList) (lowerList raw.toList)).length : ℚ) / 9 > 0.1 then
        (some "suspicious", some 0.6)
      else (some "benign", some 0.8)) := by
  have hlen : ((FileAnalyzer.malicious_patterns.length : ℕ) : ℚ) = 9 := by
    norm_num [FileAnalyzer.malicious_patterns]
  unfold FileAnalyzer.predict
  rw [hf]
  dsimp only
  rw [ht]
  dsimp only
  rw [hlen]
  split_ifs <;> rfl

/-- The file used by the C7 witness. -/
def c7File : FileData := { size := 18, text := some "run powershell now", hash := some "h" }

def c7FS : FileSystem := [("/f", c7File)]

/-- C7 witness: a file whose content matches exactly one fixed pattern
("powershell") has score 1/9 ∈ (0.1, 0.3] and is classified "suspicious"
with confidence 0.6. -/
theorem file_predict_thresholds_witness :
    lookupFile c7FS "/f" = some c7File ∧ c7File.text = some "run powershell now" ∧
    (FileAnalyzer.predict c7FS "t" "/f").prediction = some "suspicious" ∧
    (FileAnalyzer.predict c7FS "t" "/f").confidence = some 0.6 := by
  have h := file_predict_thresholds c7FS "t" "/f" c7File "run powershell now" rfl rfl
  have hc : ((FileAnalyzer.malicious_patterns.filter fun p =>
      containsSub (lowerList p.toList)
        (lowerList ("run powershell now").toList)).length) = 1 := by decide
  rw [hc] at h
  rw [if_neg (by norm_num), if_pos (by norm_num)] at h
  exact ⟨rfl, rfl, congrArg Prod.fst h, congrArg Prod.snd h⟩

/-! ## C6: the signature adapter -/

/-- The file used by the C6 counterexample: two fixed suspicious substrings,
hash not in the signature table. -/
def c6File : FileData := { size := 18, text := some "cmd.exe powershell", hash := some "aa" }

def c6FS : FileSystem := [("/f", c6File)]

/-- C6 counterexample: a file with 2 of the fixed suspicious substrings in its
text and no hash match is detected with confidence 0.8, but the stored method
is "yara" (with threat type "YARA: suspicious_strings"), not "rule-match" as
the claim states. -/
theorem signature_method_counterexample :
    (SignatureDetector.detect_threats c6FS "t" "/f").detected = some true ∧
    (SignatureDetector.detect_threats c6FS "t" "/f").confidence = some 0.8 ∧
    (SignatureDetector.detect_threats c6FS "t" "/f").method = some "yara" ∧
    ¬ (SignatureDetector.detect_threats c6FS "t" "/f").method = some "rule-match" := by
  refine ⟨rfl, rfl, rfl, ?_⟩
  intro h
  rw [show (SignatureDetector.detect_threats c6FS "t" "/f").method = some "yara" from rfl] at h
  simp at h

/-- The number of the fixed suspicious substrings occurring (case-insensitively)
in a text, i.e. the single YARA rule's match count. -/
def yaraMatchCount (t : String) : Nat :=
  (["cmd.exe", "powershell", "DownloadString"].filter fun s =>
    containsSub (lowerList s.toList) (lowerList t.toList)).length

/-- C6 amended: for every file system and path: a missing file yields an
error-shaped result rather than raising; a hash matching the fixed signature
table yields detected=true with confidence 0.95 and the table's label; no
hash match but at least 2 fixed suspicious substrings in the decoded text
yields detected=true with confidence 0.8 and method "yara" (threat type
"YARA: suspicious_strings"); otherwise (fewer than 2 matches, or undecodable
text) detected=false with confidence 0.0. -/
theorem signature_detect_spec (fs : FileSystem) (now path : String) :
    (lookupFile fs path = none →
      SignatureDetector.detect_threats fs now path =
        { detected := some false, threat_type := some "Unknown", confidence := some 0,
          method := some "signature", timestamp := some now,
          error := some "File not found" }) ∧
    (∀ fd, lookupFile fs path = some fd →
      (∀ label, dictLookup SignatureDetector.signature_database
          (SignatureDetector.calculate_hash fd) = some label →
        SignatureDetector.detect_threats fs now path =
          { detected := some true, threat_type := some label, confidence := some 0.95,
            method := some "signature", timestamp := some now,
            details := some (.hashInfo (SignatureDetector.calculate_hash fd) true) }) ∧
      (dictLookup SignatureDetector.signature_database
          (SignatureDetector.calculate_hash fd) = none →
        (∀ t, fd.text = some t →
          (2 ≤ yaraMatchCount t →
            SignatureDetector.detect_threats fs now path =
              { detected := some true, threat_type := some "YARA: suspicious_strings",
                confidence := some 0.8, method := some "yara", timestamp := some now,
                details := some (.ruleInfo "suspicious_strings" (yaraMatchCount t)) }) ∧
          (yaraMatchCount t < 2 →
            (SignatureDetector.detect_threats fs now path).detected = some false ∧
            (SignatureDetector.detect_threats fs now path).confidence = some 0)) ∧
        (fd.text = none →
          (SignatureDetector.detect_threats fs now path).detected = some false ∧
          (SignatureDetector.detect_threats fs now path).confidence = some 0))) := by
  refine ⟨?_, ?_⟩
  · intro h0
    unfold SignatureDetector.detect_threats
    rw [h0]
  · intro fd hfd
    refine ⟨?_, ?_⟩
    · intro label hlabel
      unfold SignatureDetector.detect_threats
      rw [hfd]
      dsimp only
      rw [hlabel]
    · intro hnodb
      refine ⟨?_, ?_⟩
      · intro t htext
        have hyara : SignatureDetector.check_yara_rules fd now =
            (if 2 ≤ yaraMatchCount t then
              ({ detected := some true, threat_type := some "YARA: suspicious_strings",
                 confidence := some 0.8, method := some "yara", timestamp := some now,
                 details := some (.ruleInfo "suspicious_strings" (yaraMatchCount t)) } :
                ModuleResult)
             else
              { detected := some false, threat_type := some "Clean", confidence := some 0,
                method := some "yara", timestamp := some now }) := by
          unfold SignatureDetector.check_yara_rules
          rw [htext]
          dsimp only [SignatureDetector.yara_rules, List.findSome?]
          rw [show ((List.filter (fun s => containsSub (lowerList s.toList) (lowerList t.toList))
            ["cmd.exe", "powershell", "DownloadString"]).length) = yaraMatchCount t from rfl]
          by_cases h2 : 2 ≤ yaraMatchCount t
          · rw [if_pos h2, if_pos h2]
            rfl
          · rw [if_neg h2, if_neg h2]
        constructor
        · intro h2
          unfold SignatureDetector.detect_threats
          rw [hfd]
          dsimp only
          rw [hnodb]
          dsimp only
          rw [hyara, if_pos h2]
          rfl
        · intro hlt
          have h2 : ¬ 2 ≤ yaraMatchCount t := not_le.mpr hlt
          constructor <;>
            · unfold SignatureDetector.detect_threats
              rw [hfd]
              dsimp only
              rw [hnodb]
              dsimp only
              rw [hyara, if_neg h2]
              rfl
      · intro htext
        have hyara : SignatureDetector.check_yara_rules fd now =
            { detected := some false, threat_type := some "Error", confidence := some 0,
              method := some "yara", timestamp := some now,
              error := some "read failure" } := by
          unfold SignatureDetector.check_yara_rules
          rw [htext]
        constructor <;>
          · unfold SignatureDetector.detect_threats
            rw [hfd]
            dsimp only
            rw [hnodb]
            dsimp only
            rw [hyara]
            rfl

/-- The file used by the C6 witness: its hash is the signature table's
empty-content SHA-256 entry. -/
def c6HitFile : FileData :=
  { size := 0, text := some "",
    hash := some "e3b0c44298fc1c149afbf4c8996fb92427ae41e4649b934ca495991b7852b855" }

def c6HitFS : FileSystem := [("/hit", c6HitFile)]

/-- C6 witness: the hash-match branch fires on the table's first entry,
returning detected=true, confidence 0.95, label "Trojan.Generic"; and for the
counterexample file the amended rule branch yields method "yara". -/
theorem signature_detect_spec_witness :
    lookupFile c6HitFS "/hit" = some c6HitFile ∧
    dictLookup SignatureDetector.signature_database
      (SignatureDetector.calculate_hash c6HitFile) = some "Trojan.Generic" ∧
    SignatureDetector.detect_threats c6HitFS "t" "/hit" =
      { detected := some true, threat_type := some "Trojan.Generic",
        confidence := some 0.95, method := some "signature", timestamp := some "t",
        details := some (.hashInfo
          "e3b0c44298fc1c149afbf4c8996fb92427ae41e4649b934ca495991b7852b855" true) } ∧
    lookupFile c6FS "/f" = some c6File ∧
    dictLookup SignatureDetector.signature_database
      (SignatureDetector.calculate_hash c6File) = none ∧
    c6File.text = some "cmd.exe powershell" ∧
    2 ≤ yaraMatchCount "cmd.exe powershell" ∧
    SignatureDetector.detect_threats c6FS "t" "/f" =
      { detected := some true, threat_type := some "YARA: suspicious_strings",
        confidence := some 0.8, method := some "yara", timestamp := some "t",
        details := some (.ruleInfo "suspicious_strings"
          (yaraMatchCount "cmd.exe powershell")) } := by
  refine ⟨rfl, rfl, ?_, rfl, rfl, rfl, by decide, ?_⟩
  · exact ((signature_detect_spec c6HitFS "t" "/hit").2 c6HitFile rfl).1 "Trojan.Generic" rfl
  · exact ((((signature_detect_spec c6FS "t" "/f").2 c6File rfl).2 rfl).1
      "cmd.exe powershell" rfl).1 (by decide)

/-! ## C8: the behavioral analyzer -/

/-- The code's connection check as a predicate: a present `"ip:port"` remote
address whose parsed port is one of the fixed malicious ports. -/
def connSuspicious (c : ConnInfo) : Bool :=
  match c.remote_address with
  | none => false
  | some ra =>
    pyIn ":" ra &&
      (match parseIntList (((splitOnChar ':' ra.toList).get? 1).getD []) with
       | some port => malicious_ports.contains port
       | none => false)

/-- A connection is well formed when any `"i:p"`-shaped remote address parses
to an integer port — precisely the shape the snapshot collector produces. -/
def ConnWellFormed (c : ConnInfo) : Prop :=
  ∀ ra, c.remote_address = some ra → pyIn ":" ra = true →
    (parseIntList (((splitOnChar ':' ra.toList).get? 1).getD [])).isSome

theorem foldl_procs (l : List ProcInfo) :
    ∀ acc : List ProcInfo × ℚ,
      l.foldl (fun acc p => if procSuspicious p then (acc.1 ++ [p], acc.2 + 0.2) else acc) acc =
        (acc.1 ++ l.filter procSuspicious,
         acc.2 + 0.2 * ((l.filter procSuspicious).length : ℚ)) := by
  induction l with
  | nil => intro acc; simp
  | cons p t ih =>
    intro acc
    rw [List.foldl_cons]
    by_cases hp : procSuspicious p
    · rw [if_pos hp, ih, Prod.mk.injEq]
      constructor
      · simp [List.filter_cons, hp, List.append_assoc]
      · simp only [List.filter_cons, hp, if_true, List.length_cons]
        push_cast
        ring
    · rw [if_neg hp, ih, Prod.mk.injEq]
      constructor
      · simp [List.filter_cons, hp]
      · simp [List.filter_cons, hp]

theorem foldl_cmds (ps : List ProcInfo) :
    ∀ acc : List (String × String × String) × ℚ,
      ps.foldl (fun acc p =>
        suspicious_commands.foldl
          (fun acc2 cmd =>
            if pyInLower cmd (procCmdline p) then
              (acc2.1 ++ [(p.name, cmd, procCmdline p)], acc2.2 + 0.3)
            else acc2)
          acc) acc =
      (acc.1 ++ (ps.map fun p =>
          (suspicious_commands.filter fun cmd => pyInLower cmd (procCmdline p)).map
            fun cmd => (p.name, cmd, procCmdline p)).flatten,
       acc.2 + 0.3 * (((ps.map fun p =>
          (suspicious_commands.filter fun cmd => pyInLower cmd (procCmdline p)).length).sum : ℕ) :
            ℚ)) := by
  induction ps with
  | nil => intro acc; simp
  | cons p t ih =>
    intro acc
    have inner : ∀ (cmds : List String) (acc2 : List (String × String × String) × ℚ),
        cmds.foldl
          (fun acc2 cmd =>
            if pyInLower cmd (procCmdline p) then
              (acc2.1 ++ [(p.name, cmd, procCmdline p)], acc2.2 + 0.3)
            else acc2)
          acc2 =
        (acc2.1 ++ (cmds.filter fun cmd => pyInLower cmd (procCmdline p)).map
          (fun cmd => (p.name, cmd, procCmdline p)),
         acc2.2 + 0.3 * (((cmds.filter fun cmd => pyInLower cmd (procCmdline p)).length : ℕ) :
           ℚ)) := by
      intro cmds
      induction cmds with
      | nil => intro acc2; simp
      | cons cmd t2 ih2 =>
        intro acc2
        rw [List.foldl_cons]
        by_cases hc : pyInLower cmd (procCmdline p)
        · rw [if_pos hc, ih2, Prod.mk.injEq]
          constructor
          · simp [List.filter_cons, hc, List.append_assoc]
          · simp only [List.filter_cons, hc, if_true, List.length_cons]
            push_cast
            ring
        · rw [if_neg hc, ih2, Prod.mk.injEq]
          constructor
          · simp [List.filter_cons, hc]
          · simp [List.filter_cons, hc]
    rw [List.foldl_cons, inner, ih, Prod.mk.injEq]
    constructor
    · rw [List.map_cons, List.flatten_cons, List.append_assoc]
    · rw [List.map_cons, List.sum_cons]
      dsimp only
      push_cast
      ring

theorem foldlM_conns (l : List ConnInfo) (h : ∀ c ∈ l, ConnWellFormed c) :
    ∀ acc : List ConnInfo × ℚ,
      (l.foldlM (fun acc c =>
        match c.remote_address with
        | none => Except.ok acc
        | some ra =>
          if pyIn ":" ra then
            match parseIntList (((splitOnChar ':' ra.toList).get? 1).getD []) with
            | none => Except.error "invalid literal for int() with base 10"
            | some port =>
              if malicious_ports.contains port then Except.ok (acc.1 ++ [c], acc.2 + 0.1)
              else Except.ok acc
          else Except.ok acc)
        acc : Except String (List ConnInfo × ℚ)) =
      Except.ok (acc.1 ++ l.filter connSuspicious,
        acc.2 + 0.1 * ((l.filter connSuspicious).length : ℚ)) := by
  induction l with
  | nil =>
    intro acc
    simp
    rfl
  | cons c t ih =>
    intro acc
    have hc := h c (List.mem_cons_self _ _)
    have ht : ∀ c2 ∈ t, ConnWellFormed c2 := fun c2 hc2 => h c2 (List.mem_cons_of_mem _ hc2)
    rw [List.foldlM_cons]
    cases hra : c.remote_address with
    | none =>
      have hcs : connSuspicious c = false := by
        simp [connSuspicious, hra]
      rw [except_ok_bind, ih ht]
      rw [show List.filter connSuspicious (c :: t) = List.filter connSuspicious t from by
        simp [List.filter_cons, hcs]]
    | some ra =>
      by_cases hcol : pyIn ":" ra
      · cases hport : parseIntList (((splitOnChar ':' ra.toList).get? 1).getD []) with
        | none =>
          exact absurd (hc ra hra hcol) (by rw [hport]; simp)
        | some port =>
          by_cases hmal : malicious_ports.contains port
          · have hcs : connSuspicious c = true := by
              unfold connSuspicious
              rw [hra]
              dsimp only
              rw [hcol, hport]
              dsimp only
              rw [hmal]
              rfl
            dsimp only
            rw [if_pos hcol, hport]
            dsimp only
            rw [if_pos hmal, except_ok_bind, ih ht]
            rw [show (Except.ok (acc.1 ++ List.filter connSuspicious (c :: t),
                acc.2 + 0.1 * ((List.filter connSuspicious (c :: t)).length : ℚ)) :
                  Except String (List ConnInfo × ℚ)) =
              (Except.ok (acc.1 ++ (c :: List.filter connSuspicious t),
                acc.2 + 0.1 * (((List.filter connSuspicious t).length : ℚ) + 1)) :
                  Except String (List ConnInfo × ℚ)) from by
              rw [List.filter_cons_of_pos hcs, List.length_cons]
              push_cast
              ring_nf]
            rw [show ((acc.1 ++ [c], acc.2 + 0.1).1 ++ List.filter connSuspicious t,
                (acc.1 ++ [c], acc.2 + 0.1).2 +
                  0.1 * ((List.filter connSuspicious t).length : ℚ)) =
              (acc.1 ++ c :: List.filter connSuspicious t,
               acc.2 + 0.1 * (((List.filter connSuspicious t).length : ℚ) + 1)) from by
              rw [Prod.mk.injEq]
              constructor
              · simp [List.append_assoc]
              · dsimp only
                ring]
          · have hcs : connSuspicious c = false := by
              unfold connSuspicious
              rw [hra]
              dsimp only
              rw [hcol, hport]
              dsimp only
              rw [Bool.not_eq_true] at hmal
              rw [hmal]
              rfl
            dsimp only
            rw [if_pos hcol, hport]
            dsimp only
            rw [if_neg hmal, except_ok_bind, ih ht]
            rw [show List.filter connSuspicious (c :: t) = List.filter connSuspicious t from by
              simp [List.filter_cons, hcs]]
      · have hcs : connSuspicious c = false := by
          unfold connSuspicious
          rw [hra]
          dsimp only
          rw [Bool.not_eq_true] at hcol
          rw [hcol]
          rfl
        dsimp only
        rw [if_neg hcol, except_ok_bind, ih ht]
        rw [show List.filter connSuspicious (c :: t) = List.filter connSuspicious t from by
          simp [List.filter_cons, hcs]]

/-- The claim's accumulated fractional score: 0.2 per suspicious process name,
0.3 per (process, suspicious command) pair, 0.1 per connection to a fixed
malicious port. -/
def behaviorRawScore (data : BehavioralData) : ℚ :=
  0.2 * ((data.processes.filter procSuspicious).length : ℚ) +
  0.3 * (((data.processes.map fun p =>
    (suspicious_commands.filter fun cmd => pyInLower cmd (procCmdline p)).length).sum : ℕ) : ℚ) +
  0.1 * ((data.network_connections.filter connSuspicious).length : ℚ)

/-- C8: for every well-formed behavioral snapshot, `analyze_behavior` returns
overall risk `min 10.0 (raw * 10)` where raw is the claim's fractional score,
and the threat level is "high" iff raw ≥ 0.7, "medium" iff 0.4 ≤ raw < 0.7,
and "low" iff raw < 0.4 (thresholds on the pre-multiplied sum). -/
theorem analyze_behavior_spec (now : String) (data : BehavioralData)
    (h : ∀ c ∈ data.network_connections, ConnWellFormed c) :
    (analyze_behavior now data).overall_risk_score =
      some (min 10.0 (behaviorRawScore data * 10)) ∧
    ((analyze_behavior now data).threat_level = some "high" ↔
      0.7 ≤ behaviorRawScore data) ∧
    ((analyze_behavior now data).threat_level = some "medium" ↔
      0.4 ≤ behaviorRawScore data ∧ behaviorRawScore data < 0.7) ∧
    ((analyze_behavior now data).threat_level = some "low" ↔
      behaviorRawScore data < 0.4) := by
  unfold analyze_behavior
  rw [foldl_procs]
  dsimp only
  rw [foldl_cmds]
  dsimp only
  rw [foldlM_conns data.network_connections h]
  dsimp only
  rw [show ((0 : ℚ) + 0.2 * ((data.processes.filter procSuspicious).length : ℚ) +
      0.3 * (((data.processes.map fun p =>
        (suspicious_commands.filter fun cmd => pyInLower cmd (procCmdline p)).length).sum : ℕ) :
          ℚ) +
      0.1 * ((data.network_connections.filter connSuspicious).length : ℚ)) =
    behaviorRawScore data from by unfold behaviorRawScore; ring]
  refine ⟨rfl, ?_, ?_, ?_⟩
  · by_cases h7 : 0.7 ≤ behaviorRawScore data
    · simp [ge_iff_le, h7]
    · simp only [ge_iff_le, if_neg h7]
      constructor
      · intro hc
        split_ifs at hc <;> simp_all
      · intro hc
        exact absurd hc h7
  · by_cases h7 : 0.7 ≤ behaviorRawScore data
    · simp only [ge_iff_le, if_pos h7]
      constructor
      · intro hc
        simp at hc
      · rintro ⟨h4, hlt⟩
        exact absurd h7 (not_le.mpr hlt)
    · by_cases h4 : 0.4 ≤ behaviorRawScore data
      · simp [ge_iff_le, h7, h4, not_le.mp h7]
      · simp only [ge_iff_le, if_neg h7, if_neg h4]
        constructor
        · intro hc
          simp at hc
        · rintro ⟨hc, _⟩
          exact absurd hc h4
  · by_cases h7 : 0.7 ≤ behaviorRawScore data
    · simp only [ge_iff_le, if_pos h7]
      constructor
      · intro hc
        simp at hc
      · intro hc
        exact absurd (le_trans (by norm_num) h7) (not_le.mpr hc)
    · by_cases h4 : 0.4 ≤ behaviorRawScore data
      · simp only [ge_iff_le, if_neg h7, if_pos h4]
        constructor
        · intro hc
          simp at hc
        · intro hc
          exact absurd h4 (not_le.mpr hc)
      · simp [ge_iff_le, h7, h4, not_le.mp h4]

/-- The snapshot used by the C8 witness: one suspicious process (cmd.exe), no
suspicious commands, one connection to port 4444. -/
def c8Data : BehavioralData :=
  { timestamp := "t",
    processes := [{ pid := 1, name := "CMD.exe" }],
    network_connections := [{ remote_address := some "10.0.0.5:4444", status := "EST" }] }

/-- C8 witness: the snapshot scores 0.2 + 0.1 = 0.3, below the 0.4 medium
threshold, so the risk score is 3.0 and the threat level "low". -/
theorem analyze_behavior_spec_witness :
    (∀ c ∈ c8Data.network_connections, ConnWellFormed c) ∧
    behaviorRawScore c8Data = 0.3 ∧
    (analyze_behavior "t" c8Data).overall_risk_score = some 3 ∧
    (analyze_behavior "t" c8Data).threat_level = some "low" := by
  have hwf : ∀ c ∈ c8Data.network_connections, ConnWellFormed c := by
    intro c hmem ra hra hcolon
    simp [c8Data] at hmem
    subst hmem
    simp at hra
    subst hra
    decide
  have hraw : behaviorRawScore c8Data = 0.3 := by
    have h1 : (c8Data.processes.filter procSuspicious).length = 1 := by decide
    have h2 : ((c8Data.processes.map fun p =>
        (suspicious_commands.filter fun cmd => pyInLower cmd (procCmdline p)).length).sum) = 0 := by
      decide
    have h3 : (c8Data.network_connections.filter connSuspicious).length = 1 := by decide
    unfold behaviorRawScore
    rw [h1, h2, h3]
    norm_num
  have h := analyze_behavior_spec "t" c8Data hwf
  refine ⟨hwf, hraw, ?_, ?_⟩
  · rw [h.1, hraw]
    norm_num
  · exact (h.2.2.2).mpr (by rw [hraw]; norm_num)

/-! ## C1: per-adapter fault isolation -/

/-- The five weighted module names, in Coordinator invocation order. -/
inductive ModName where
  | signature
  | file_analysis
  | behavioral
  | encrypted
  | social_engineering
deriving DecidableEq, Repr

/-- The dictionary key of a module. -/
def ModName.key : ModName → String
  | .signature => "signature"
  | .file_analysis => "file_analysis"
  | .behavioral => "behavioral"
  | .encrypted => "encrypted"
  | .social_engineering => "social_engineering"

/-- Replace one adapter by one whose invocation raises `e` (the spec's
"simulate one adapter throwing"). -/
def EnhancedThreatDetector.Adapters.withFault (a : Adapters) (m : ModName) (e : String) : Adapters :=
  match m with
  | .signature => { a with sigDetect := fun _ => .error e }
  | .file_analysis => { a with filePredict := fun _ => .error e }
  | .behavioral => { a with collectBehavioral := .error e }
  | .encrypted => { a with encryptedDetect := fun _ => .error e }
  | .social_engineering => { a with socialDetect := fun _ => .error e }

theorem if_not_isEmpty {α : Type} (l : List α) : (if ¬l.isEmpty then l else []) = l := by
  cases l <;> simp

/-- C1: on a full input bundle, if exactly one adapter invocation raises while
the others return normally, the fault is caught and stored as the error-shaped
`ModuleResult` under that module's name; every other module's slot still holds
its own result; the threat records of the remaining modules still appear in
the verdict; and the faulted module's slot contributes nothing to the weighted
risk and confidence totals (removing it leaves the totals unchanged). -/
theorem detect_adapter_fault_isolated
    (a : Adapters) (m : ModName) (e : String) (w : List (String × ℚ)) (now fp : String)
    (sd : SystemData) (nd : NetworkData) (cd : CommData)
    (rsig rfile rbeh renc rsoc : ModuleResult) (bd : BehavioralData)
    (h1 : a.sigDetect fp = .ok rsig) (h2 : a.filePredict fp = .ok rfile)
    (h3 : a.collectBehavioral = .ok bd) (h4 : a.analyzeBehavior bd = .ok rbeh)
    (h5 : a.encryptedDetect nd = .ok renc) (h6 : a.socialDetect cd = .ok rsoc) :
    dictLookup (EnhancedThreatDetector.detect_threats (a.withFault m e) w now
      { file_path := some fp, system_data := some sd, network_data := some nd,
        communication_data := some cd }).module_results "signature" =
      some (if m = .signature then errResult e else rsig) ∧
    dictLookup (EnhancedThreatDetector.detect_threats (a.withFault m e) w now
      { file_path := some fp, system_data := some sd, network_data := some nd,
        communication_data := some cd }).module_results "file_analysis" =
      some (if m = .file_analysis then errResult e else rfile) ∧
    dictLookup (EnhancedThreatDetector.detect_threats (a.withFault m e) w now
      { file_path := some fp, system_data := some sd, network_data := some nd,
        communication_data := some cd }).module_results "behavioral" =
      some (if m = .behavioral then errResult e else rbeh) ∧
    dictLookup (EnhancedThreatDetector.detect_threats (a.withFault m e) w now
      { file_path := some fp, system_data := some sd, network_data := some nd,
        communication_data := some cd }).module_results "encrypted" =
      some (if m = .encrypted then errResult e else renc) ∧
    dictLookup (EnhancedThreatDetector.detect_threats (a.withFault m e) w now
      { file_path := some fp, system_data := some sd, network_data := some nd,
        communication_data := some cd }).module_results "social_engineering" =
      some (if m = .social_engineering then errResult e else rsoc) ∧
    (EnhancedThreatDetector.detect_threats (a.withFault m e) w now
      { file_path := some fp, system_data := some sd, network_data := some nd,
        communication_data := some cd }).threats_detected =
      (if m = .signature then [] else
        if rsig.detected.getD false then
          [{ ttype := "Signature Match", module := some "signature" }] else []) ++
      (if m = .file_analysis then [] else
        if rfile.prediction = some "malicious" ∨ rfile.prediction = some "suspicious" then
          [{ ttype := "File-based Threat", module := some "file_analysis" }] else []) ++
      (if m = .behavioral then [] else rbeh.threats_detected.getD []) ++
      (if m = .encrypted then [] else renc.threats_detected.getD []) ++
      (if m = .social_engineering then [] else rsoc.threats_detected.getD []) ∧
    ensembleTotals w (EnhancedThreatDetector.detect_threats (a.withFault m e) w now
      { file_path := some fp, system_data := some sd, network_data := some nd,
        communication_data := some cd }).module_results =
      ensembleTotals w ((EnhancedThreatDetector.detect_threats (a.withFault m e) w now
        { file_path := some fp, system_data := some sd, network_data := some nd,
          communication_data := some cd }).module_results.filter
        fun p => p.1 != m.key) := by
  cases m with
  | signature =>
    have hmr : (EnhancedThreatDetector.detect_threats (a.withFault .signature e) w now
        { file_path := some fp, system_data := some sd, network_data := some nd,
          communication_data := some cd }).module_results =
        [("signature", errResult e), ("file_analysis", rfile), ("behavioral", rbeh),
         ("encrypted", renc), ("social_engineering", rsoc)] := by
      simp only [EnhancedThreatDetector.detect_threats, Adapters.withFault, h2, h3, h4, h5, h6,
        Except.bind, List.nil_append, List.cons_append, List.append_nil]
    have hth : (EnhancedThreatDetector.detect_threats (a.withFault .signature e) w now
        { file_path := some fp, system_data := some sd, network_data := some nd,
          communication_data := some cd }).threats_detected =
        (if rfile.prediction = some "malicious" ∨ rfile.prediction = some "suspicious" then
          [{ ttype := "File-based Threat", module := some "file_analysis" }] else []) ++
        rbeh.threats_detected.getD [] ++ renc.threats_detected.getD [] ++
        rsoc.threats_detected.getD [] := by
      simp only [EnhancedThreatDetector.detect_threats, Adapters.withFault, h2, h3, h4, h5, h6,
        Except.bind, if_not_isEmpty, List.nil_append, List.cons_append, List.append_nil,
        List.append_assoc]
    refine ⟨?_, ?_, ?_, ?_, ?_, ?_, ?_⟩
    · simp +decide [hmr, dictLookup]
    · simp +decide [hmr, dictLookup]
    · simp +decide [hmr, dictLookup]
    · simp +decide [hmr, dictLookup]
    · simp +decide [hmr, dictLookup]
    · rw [hth]
      simp [List.append_assoc]
    · rw [hmr]
      apply ensembleTotals_dropErrorSlot
      intro r hr
      simp +decide [dictLookup] at hr
      rw [← hr]
      simp [errResult]
  | file_analysis =>
    have hmr : (EnhancedThreatDetector.detect_threats (a.withFault .file_analysis e) w now
        { file_path := some fp, system_data := some sd, network_data := some nd,
          communication_data := some cd }).module_results =
        [("signature", rsig), ("file_analysis", errResult e), ("behavioral", rbeh),
         ("encrypted", renc), ("social_engineering", rsoc)] := by
      simp only [EnhancedThreatDetector.detect_threats, Adapters.withFault, h1, h3, h4, h5, h6,
        Except.bind, List.nil_append, List.cons_append, List.append_nil]
    have hth : (EnhancedThreatDetector.detect_threats (a.withFault .file_analysis e) w now
        { file_path := some fp, system_data := some sd, network_data := some nd,
          communication_data := some cd }).threats_detected =
        (if rsig.detected.getD false then
          [{ ttype := "Signature Match", module := some "signature" }] else []) ++
        rbeh.threats_detected.getD [] ++ renc.threats_detected.getD [] ++
        rsoc.threats_detected.getD [] := by
      simp only [EnhancedThreatDetector.detect_threats, Adapters.withFault, h1, h3, h4, h5, h6,
        Except.bind, if_not_isEmpty, List.nil_append, List.cons_append, List.append_nil,
        List.append_assoc]
    refine ⟨?_, ?_, ?_, ?_, ?_, ?_, ?_⟩
    · simp +decide [hmr, dictLookup]
    · simp +decide [hmr, dictLookup]
    · simp +decide [hmr, dictLookup]
    · simp +decide [hmr, dictLookup]
    · simp +decide [hmr, dictLookup]
    · rw [hth]
      simp [List.append_assoc]
    · rw [hmr]
      apply ensembleTotals_dropErrorSlot
      intro r hr
      simp +decide [dictLookup] at hr
      rw [← hr]
      simp [errResult]
  | behavioral =>
    have hmr : (EnhancedThreatDetector.detect_threats (a.withFault .behavioral e) w now
        { file_path := some fp, system_data := some sd, network_data := some nd,
          communication_data := some cd }).module_results =
        [("signature", rsig), ("file_analysis", rfile), ("behavioral", errResult e),
         ("encrypted", renc), ("social_engineering", rsoc)] := by
      simp only [EnhancedThreatDetector.detect_threats, Adapters.withFault, h1, h2, h5, h6,
        Except.bind, List.nil_append, List.cons_append, List.append_nil]
    have hth : (EnhancedThreatDetector.detect_threats (a.withFault .behavioral e) w now
        { file_path := some fp, system_data := some sd, network_data := some nd,
          communication_data := some cd }).threats_detected =
        (if rsig.detected.getD false then
          [{ ttype := "Signature Match", module := some "signature" }] else []) ++
        (if rfile.prediction = some "malicious" ∨ rfile.prediction = some "suspicious" then
          [{ ttype := "File-based Threat", module := some "file_analysis" }] else []) ++
        renc.threats_detected.getD [] ++ rsoc.threats_detected.getD [] := by
      simp only [EnhancedThreatDetector.detect_threats, Adapters.withFault, h1, h2, h5, h6,
        Except.bind, if_not_isEmpty, List.nil_append, List.cons_append, List.append_nil,
        List.append_assoc]
    refine ⟨?_, ?_, ?_, ?_, ?_, ?_, ?_⟩
    · simp +decide [hmr, dictLookup]
    · simp +decide [hmr, dictLookup]
    · simp +decide [hmr, dictLookup]
    · simp +decide [hmr, dictLookup]
    · simp +decide [hmr, dictLookup]
    · rw [hth]
      simp [List.append_assoc]
    · rw [hmr]
      apply ensembleTotals_dropErrorSlot
      intro r hr
      simp +decide [dictLookup] at hr
      rw [← hr]
      simp [errResult]
  | encrypted =>
    have hmr : (EnhancedThreatDetector.detect_threats (a.withFault .encrypted e) w now
        { file_path := some fp, system_data := some sd, network_data := some nd,
          communication_data := some cd }).module_results =
        [("signature", rsig), ("file_analysis", rfile), ("behavioral", rbeh),
         ("encrypted", errResult e), ("social_engineering", rsoc)] := by
      simp only [EnhancedThreatDetector.detect_threats, Adapters.withFault, h1, h2, h3, h4, h6,
        Except.bind, List.nil_append, List.cons_append, List.append_nil]
    have hth : (EnhancedThreatDetector.detect_threats (a.withFault .encrypted e) w now
        { file_path := some fp, system_data := some sd, network_data := some nd,
          communication_data := some cd }).threats_detected =
        (if rsig.detected.getD false then
          [{ ttype := "Signature Match", module := some "signature" }] else []) ++
        (if rfile.prediction = some "malicious" ∨ rfile.prediction = some "suspicious" then
          [{ ttype := "File-based Threat", module := some "file_analysis" }] else []) ++
        rbeh.threats_detected.getD [] ++ rsoc.threats_detected.getD [] := by
      simp only [EnhancedThreatDetector.detect_threats, Adapters.withFault, h1, h2, h3, h4, h6,
        Except.bind, if_not_isEmpty, List.nil_append, List.cons_append, List.append_nil,
        List.append_assoc]
    refine ⟨?_, ?_, ?_, ?_, ?_, ?_, ?_⟩
    · simp +decide [hmr, dictLookup]
    · simp +decide [hmr, dictLookup]
    · simp +decide [hmr, dictLookup]
    · simp +decide [hmr, dictLookup]
    · simp +decide [hmr, dictLookup]
    · rw [hth]
      simp [List.append_assoc]
    · rw [hmr]
      apply ensembleTotals_dropErrorSlot
      intro r hr
      simp +decide [dictLookup] at hr
      rw [← hr]
      simp [errResult]
  | social_engineering =>
    have hmr : (EnhancedThreatDetector.detect_threats (a.withFault .social_engineering e) w now
        { file_path := some fp, system_data := some sd, network_data := some nd,
          communication_data := some cd }).module_results =
        [("signature", rsig), ("file_analysis", rfile), ("behavioral", rbeh),
         ("encrypted", renc), ("social_engineering", errResult e)] := by
      simp only [EnhancedThreatDetector.detect_threats, Adapters.withFault, h1, h2, h3, h4, h5,
        Except.bind, List.nil_append, List.cons_append, List.append_nil]
    have hth : (EnhancedThreatDetector.detect_threats (a.withFault .social_engineering e) w now
        { file_path := some fp, system_data := some sd, network_data := some nd,
          communication_data := some cd }).threats_detected =
        (if rsig.detected.getD false then
          [{ ttype := "Signature Match", module := some "signature" }] else []) ++
        (if rfile.prediction = some "malicious" ∨ rfile.prediction = some "suspicious" then
          [{ ttype := "File-based Threat", module := some "file_analysis" }] else []) ++
        rbeh.threats_detected.getD [] ++ renc.threats_detected.getD [] := by
      simp only [EnhancedThreatDetector.detect_threats, Adapters.withFault, h1, h2, h3, h4, h5,
        Except.bind, if_not_isEmpty, List.nil_append, List.cons_append, List.append_nil,
        List.append_assoc]
    refine ⟨?_, ?_, ?_, ?_, ?_, ?_, ?_⟩
    · simp +decide [hmr, dictLookup]
    · simp +decide [hmr, dictLookup]
    · simp +decide [hmr, dictLookup]
    · simp +decide [hmr, dictLookup]
    · simp +decide [hmr, dictLookup]
    · rw [hth]
      simp [List.append_assoc]
    · rw [hmr]
      apply ensembleTotals_dropErrorSlot
      intro r hr
      simp +decide [dictLookup] at hr
      rw [← hr]
      simp [errResult]

/-- Concrete instantiation data for the C1 witness. -/
def c1FS : FileSystem := [("/mal", { size := 4, text := some "hello", hash := some "h1" })]

def c1Env : LiveEnv := { processes := [{ pid := 3, name := "cmd.exe" }] }

def c1Adapters : Adapters := standardAdapters c1FS c1Env "t"

def c1Bundle : InputBundle :=
  { file_path := some "/mal", system_data := some {}, network_data := some {},
    communication_data := some {} }

/-- C1 witness: faulting the behavioral adapter on a full bundle stores the
bare error marker under "behavioral", keeps the signature adapter's own
result in its slot, and leaves the weighted totals unchanged when the faulted
slot is removed. -/
theorem detect_adapter_fault_isolated_witness :
    c1Adapters.sigDetect "/mal" = .ok (SignatureDetector.detect_threats c1FS "t" "/mal") ∧
    c1Adapters.filePredict "/mal" = .ok (FileAnalyzer.predict c1FS "t" "/mal") ∧
    c1Adapters.collectBehavioral = .ok (collect_behavioral_data "t" c1Env) ∧
    c1Adapters.analyzeBehavior (collect_behavioral_data "t" c1Env) =
      .ok (analyze_behavior "t" (collect_behavioral_data "t" c1Env)) ∧
    c1Adapters.encryptedDetect {} = .ok (detect_encrypted_threats "t" {}) ∧
    c1Adapters.socialDetect {} = .ok (detect_social_engineering "t" {}) ∧
    dictLookup (EnhancedThreatDetector.detect_threats (c1Adapters.withFault .behavioral "boom")
      defaultWeights "t" c1Bundle).module_results "behavioral" = some (errResult "boom") ∧
    dictLookup (EnhancedThreatDetector.detect_threats (c1Adapters.withFault .behavioral "boom")
      defaultWeights "t" c1Bundle).module_results "signature" =
      some (SignatureDetector.detect_threats c1FS "t" "/mal") ∧
    ensembleTotals defaultWeights (EnhancedThreatDetector.detect_threats
      (c1Adapters.withFault .behavioral "boom") defaultWeights "t" c1Bundle).module_results =
      ensembleTotals defaultWeights ((EnhancedThreatDetector.detect_threats
        (c1Adapters.withFault .behavioral "boom") defaultWeights "t" c1Bundle).module_results.filter
        fun p => p.1 != ModName.key .behavioral) := by
  have h := detect_adapter_fault_isolated c1Adapters .behavioral "boom" defaultWeights "t" "/mal"
    {} {} {} (SignatureDetector.detect_threats c1FS "t" "/mal")
    (FileAnalyzer.predict c1FS "t" "/mal")
    (analyze_behavior "t" (collect_behavioral_data "t" c1Env)) (detect_encrypted_threats "t" {})
    (detect_social_engineering "t" {}) (collect_behavioral_data "t" c1Env)
    rfl rfl rfl rfl rfl rfl
  refine ⟨rfl, rfl, rfl, rfl, rfl, rfl, ?_, ?_, h.2.2.2.2.2.2⟩
  · have h3 := h.2.2.1
    simpa using h3
  · have hs := h.1
    simpa using hs

/-! ## C4: the behavioral module reads live state, not the supplied snapshot -/

def env4a : LiveEnv := {}

def env4b : LiveEnv := { processes := [{ pid := 2, name := "powershell.exe" }] }

def bundle4 : InputBundle := { system_data := some {} }

/-- C4 counterexample: two `detect_threats` calls with the SAME input bundle
and the same weights but different live machine states store different
behavioral ModuleResults, so the behavioral result is not computed solely
from the supplied input bundle. -/
theorem behavioral_live_state_counterexample :
    dictLookup (EnhancedThreatDetector.detect_threats (standardAdapters [] env4a "t")
      defaultWeights "t" bundle4).module_results "behavioral" ≠
    dictLookup (EnhancedThreatDetector.detect_threats (standardAdapters [] env4b "t")
      defaultWeights "t" bundle4).module_results "behavioral" := by
  intro hEq
  have hA : (dictLookup (EnhancedThreatDetector.detect_threats (standardAdapters [] env4a "t")
      defaultWeights "t" bundle4).module_results "behavioral").map
        (fun r => r.threats_detected) = some (some []) := rfl
  have hB : (dictLookup (EnhancedThreatDetector.detect_threats (standardAdapters [] env4b "t")
      defaultWeights "t" bundle4).module_results "behavioral").map
        (fun r => r.threats_detected) =
      some (some [{ ttype := "Suspicious Process", risk_level := some "medium" }]) := rfl
  rw [hEq, hB] at hA
  simp at hA

/-- C4 amended: the behavioral slot of the verdict is `analyze_behavior`
applied to the snapshot the Coordinator itself collects live via
`collect_behavioral_data`; the supplied `system_data` value is ignored (its
presence only gates the module), so the stored behavioral result varies with
the live machine state and not with the supplied snapshot value. -/
theorem behavioral_slot_from_live_state (fs : FileSystem) (env : LiveEnv)
    (w : List (String × ℚ)) (now : String) (data : InputBundle)
    (h : data.system_data.isSome) :
    dictLookup (EnhancedThreatDetector.detect_threats (standardAdapters fs env now)
      w now data).module_results "behavioral" =
      some (analyze_behavior now (collect_behavioral_data now env)) := by
  obtain ⟨fp, sd, nd, cd⟩ := data
  cases sd with
  | none => simp at h
  | some sdv =>
    cases fp <;> cases nd <;> cases cd <;> rfl

/-- C4 witness: on a bundle whose only part is a system snapshot, the stored
behavioral result is the analysis of the live collection. -/
theorem behavioral_slot_from_live_state_witness :
    (bundle4.system_data).isSome ∧
    dictLookup (EnhancedThreatDetector.detect_threats (standardAdapters [] env4b "t")
      defaultWeights "t" bundle4).module_results "behavioral" =
      some (analyze_behavior "t" (collect_behavioral_data "t" env4b)) :=
  ⟨rfl, behavioral_slot_from_live_state [] env4b defaultWeights "t" bundle4 rfl⟩

/-! ## C9: timestamps on stored ModuleResults -/

theorem check_yara_timestamp (fd : FileData) (now : String) :
    (SignatureDetector.check_yara_rules fd now).timestamp = some now := by
  unfold SignatureDetector.check_yara_rules
  split
  · rfl
  · rename_i t heq
    dsimp only [SignatureDetector.yara_rules, List.findSome?]
    by_cases h2 : 2 ≤ (List.filter (fun s => containsSub (lowerList s.toList)
        (lowerList t.toList)) ["cmd.exe", "powershell", "DownloadString"]).length
    · rw [if_pos h2]
    · rw [if_neg h2]

theorem sig_detect_timestamp (fs : FileSystem) (now p : String) :
    (SignatureDetector.detect_threats fs now p).timestamp = some now := by
  unfold SignatureDetector.detect_threats
  split
  · rfl
  · dsimp only
    split
    · rfl
    · split
      · exact check_yara_timestamp _ now
      · rfl

theorem file_predict_timestamp (fs : FileSystem) (now p : String) :
    (FileAnalyzer.predict fs now p).timestamp = some now := by
  unfold FileAnalyzer.predict
  split
  · rfl
  · dsimp only
    split
    · split
      · rfl
      · rfl
    · rfl

theorem analyze_behavior_timestamp (now : String) (d : BehavioralData) :
    (analyze_behavior now d).timestamp = some now := by
  unfold analyze_behavior
  dsimp only
  split
  · rfl
  · rfl

theorem encrypted_timestamp (now : String) (nd : NetworkData) :
    (detect_encrypted_threats now nd).timestamp = some now := rfl

theorem social_timestamp (now : String) (cd : CommData) :
    (detect_social_engineering now cd).timestamp = some now := rfl

/-- C9 counterexample: when an adapter invocation raises, the Coordinator's
stored error marker `{"error": str(e)}` carries no timestamp, so not every
stored ModuleResult carries one. -/
theorem error_marker_missing_timestamp_counterexample :
    ¬ ∀ p ∈ (EnhancedThreatDetector.detect_threats
        ((standardAdapters [] {} "t").withFault .signature "boom")
        defaultWeights "t" { file_path := some "/f" }).module_results,
      (p.2).timestamp.isSome := by
  intro hAll
  have hmem : ("signature", errResult "boom") ∈ (EnhancedThreatDetector.detect_threats
      ((standardAdapters [] {} "t").withFault .signature "boom")
      defaultWeights "t" { file_path := some "/f" }).module_results := by
    rw [show (EnhancedThreatDetector.detect_threats
        ((standardAdapters [] {} "t").withFault .signature "boom")
        defaultWeights "t" { file_path := some "/f" }).module_results =
      [("signature", errResult "boom"), ("file_analysis", FileAnalyzer.predict [] "t" "/f")]
      from rfl]
    exact List.mem_cons_self _ _
  exact absurd (hAll _ hmem) (by simp [errResult])

/-- C9 amended: with the repository's own adapters every stored ModuleResult
carries a timestamp — each adapter stamps all of its return paths, including
its handled-error results — while the Coordinator's error marker for a
raising adapter consists solely of the error string and carries no timestamp. -/
theorem standard_module_results_timestamped (fs : FileSystem) (env : LiveEnv)
    (w : List (String × ℚ)) (now : String) (data : InputBundle) :
    (∀ p ∈ (EnhancedThreatDetector.detect_threats (standardAdapters fs env now)
        w now data).module_results, (p.2).timestamp = some now) ∧
    ∀ e, (errResult e).timestamp = none := by
  constructor
  · obtain ⟨fp, sd, nd, cd⟩ := data
    cases fp <;> cases sd <;> cases nd <;> cases cd <;>
      simp [EnhancedThreatDetector.detect_threats, standardAdapters, Except.bind,
        List.forall_mem_cons, sig_detect_timestamp, file_predict_timestamp,
        analyze_behavior_timestamp, encrypted_timestamp, social_timestamp]
  · intro e
    rfl

/-- C9 witness for the amended claim: on a bundle with a file path and a
system snapshot, both stored results carry the call's timestamp, and the
error marker shape carries none. -/
theorem standard_module_results_timestamped_witness :
    (∀ p ∈ (EnhancedThreatDetector.detect_threats (standardAdapters c1FS c1Env "t")
        defaultWeights "t" { file_path := some "/mal", system_data := some {} }).module_results,
      (p.2).timestamp = some "t") ∧
    ∀ e, (errResult e).timestamp = none :=
  standard_module_results_timestamped c1FS c1Env defaultWeights "t"
    { file_path := some "/mal", system_data := some {} }

end NeuraShield
